import Mathlib

/-!
Verification of the voicemed-mitr conversational triage core against its
natural-language specification.  The TypeScript sources are shallowly
embedded: strings are Lean `String`s manipulated through their `List Char`
data, JavaScript numbers are modelled as rationals (`ℚ`), `Map`s as
association lists in insertion order, and methods that can `throw` return
an `Except` outcome paired with the resulting store.  Random template
picks (`Math.random()`) are modelled by an explicit natural-number pick
threaded as a parameter.
-/

set_option maxRecDepth 40000
set_option linter.unusedVariables false

namespace VoiceMedMitr

/-! ## String utilities (JS `toLowerCase`, `includes`, `trim` on ASCII text) -/

/-- Lowercase a character sequence (JS `toLowerCase`; the repository's text is ASCII). -/
def lowerL (l : List Char) : List Char := l.map Char.toLower

/-- Lowercase a string. -/
def lowerStr (s : String) : String := String.mk (lowerL s.data)

/-- `needle.isPrefixOf hay` for character lists, by direct recursion. -/
def isPrefixL : List Char → List Char → Bool
  | [], _ => true
  | _ :: _, [] => false
  | a :: as, b :: bs => a = b && isPrefixL as bs

/-- Does `hay` contain `needle` as a contiguous substring? (JS `String.includes`.) -/
def hasInfixL (needle : List Char) : List Char → Bool
  | [] => isPrefixL needle []
  | c :: rest => isPrefixL needle (c :: rest) || hasInfixL needle rest

/-- `hay.includes needle` on strings, case-sensitive. -/
def strContains (hay needle : String) : Bool := hasInfixL needle.data hay.data

/-- `hay.toLowerCase().includes(needle.toLowerCase())`. -/
def containsCI (hay needle : String) : Bool :=
  hasInfixL (lowerL needle.data) (lowerL hay.data)

theorem isPrefixL_iff (n h : List Char) : isPrefixL n h = true ↔ n <+: h := by
  induction n generalizing h with
  | nil => simp [isPrefixL]
  | cons a as ih =>
    cases h with
    | nil => simp [isPrefixL]
    | cons b bs =>
      simp [isPrefixL, List.cons_prefix_cons, ih, eq_comm (a := a) (b := b)]

theorem hasInfixL_iff (n h : List Char) : hasInfixL n h = true ↔ n <:+: h := by
  induction h with
  | nil =>
    cases n with
    | nil => simp [hasInfixL, isPrefixL]
    | cons c cs => simp [hasInfixL, isPrefixL]
  | cons c rest ih =>
    simp only [hasInfixL, Bool.or_eq_true, isPrefixL_iff, ih, List.infix_cons_iff]

/-- Verbatim containment survives lowercasing: used to pass from the guardian's
case-insensitive checks to case-sensitive claims. -/
theorem hasInfixL_lower_of_hasInfixL {n h : List Char}
    (hin : hasInfixL n h = true) : hasInfixL (lowerL n) (lowerL h) = true := by
  rw [hasInfixL_iff] at hin ⊢
  exact List.IsInfix.map Char.toLower hin

/-! ## Domain data types (src/index.ts) -/

inductive SeverityLevel
  | mild
  | moderate
  | severe
deriving DecidableEq, Repr

inductive RiskLevel
  | mild
  | moderate
  | emergency
deriving DecidableEq, Repr

inductive UserIntent
  | describe_symptoms
  | ask_clarification
  | end_session
  | request_help
  | unknown
deriving DecidableEq, Repr

inductive SessionStatus
  | active
  | completed
  | expired
  | terminated
deriving DecidableEq, Repr

inductive TimeUnit
  | minutes
  | hours
  | days
  | weeks
deriving DecidableEq, Repr

structure Duration where
  value : ℚ
  unit : TimeUnit
deriving DecidableEq, Repr

structure SymptomEntity where
  symptom : String
  bodyPart : Option String
  severity : SeverityLevel
  duration : Option Duration
  confidence : ℚ
deriving DecidableEq, Repr

structure RiskAssessment where
  level : RiskLevel
  confidence : ℚ
  reasoning : List String
  recommendations : List String
deriving DecidableEq, Repr

/-- The string value of a severity enum member (src/index.ts). -/
def SeverityLevel.str : SeverityLevel → String
  | .mild => "mild"
  | .moderate => "moderate"
  | .severe => "severe"

/-- The string value of a risk-level enum member (src/index.ts). -/
def RiskLevel.str : RiskLevel → String
  | .mild => "mild"
  | .moderate => "moderate"
  | .emergency => "emergency"

/-! ## Risk classifier (RiskClassifierImpl, src/voice-activity-detection.test.ts) -/

namespace RiskClassifier

/-- A duration range in a rule condition. -/
structure DurationRange where
  min : ℚ
  max : ℚ
  unit : TimeUnit
deriving DecidableEq, Repr

structure RiskCondition where
  symptom : String
  severity : Option SeverityLevel
  bodyPart : Option String
  duration : Option DurationRange
  required : Bool
deriving DecidableEq, Repr

structure RiskRule where
  conditions : List RiskCondition
  riskLevel : RiskLevel
  confidence : ℚ
  reasoning : List String
  recommendations : List String
deriving DecidableEq, Repr

/-- The classifier's emergency keyword list: SAFETY_CONSTRAINTS.emergencyKeywords
followed by the additional keywords of initializeEmergencyKeywords. -/
def emergencyKeywords : List String :=
  ["chest pain", "difficulty breathing", "severe bleeding",
   "unconscious", "stroke", "heart attack", "allergic reaction",
   "severe headache", "can\x27t breathe", "choking",
   "unconscious", "can\x27t breathe", "choking", "severe bleeding",
   "stroke symptoms", "heart attack", "allergic reaction",
   "severe pain", "difficulty swallowing", "confusion",
   "loss of consciousness", "severe dizziness", "fainting"]

/-- The static rule table of initializeRiskRules, in source order. -/
def riskRules : List RiskRule :=
  [{ conditions := [{ symptom := "chest pain", severity := some .severe,
                      bodyPart := none, duration := none, required := true }],
     riskLevel := .emergency, confidence := 0.9,
     reasoning := ["Severe chest pain can indicate heart attack or other cardiac emergency"],
     recommendations := ["Contact emergency services immediately", "Do not drive yourself to hospital"] },
   { conditions := [{ symptom := "shortness of breath", severity := some .severe,
                      bodyPart := none, duration := none, required := true }],
     riskLevel := .emergency, confidence := 0.9,
     reasoning := ["Severe breathing difficulty requires immediate medical attention"],
     recommendations := ["Call emergency services now", "Sit upright and try to stay calm"] },
   { conditions := [{ symptom := "headache", severity := some .severe,
                      bodyPart := none, duration := none, required := true },
                    { symptom := "fever", severity := none,
                      bodyPart := none, duration := none, required := false }],
     riskLevel := .emergency, confidence := 0.8,
     reasoning := ["Severe headache with fever may indicate serious infection"],
     recommendations := ["Seek immediate medical attention", "Go to emergency room"] },
   { conditions := [{ symptom := "fever", severity := some .moderate,
                      bodyPart := none, duration := none, required := true },
                    { symptom := "cough", severity := none,
                      bodyPart := none, duration := none, required := false }],
     riskLevel := .moderate, confidence := 0.7,
     reasoning := ["Moderate fever with respiratory symptoms may indicate infection"],
     recommendations := ["Consult healthcare provider within 24 hours", "Monitor temperature regularly"] },
   { conditions := [{ symptom := "stomach pain", severity := some .moderate,
                      bodyPart := none, duration := none, required := true },
                    { symptom := "nausea", severity := none,
                      bodyPart := none, duration := none, required := false }],
     riskLevel := .moderate, confidence := 0.6,
     reasoning := ["Persistent stomach pain with nausea should be evaluated"],
     recommendations := ["Schedule appointment with doctor", "Avoid solid foods temporarily"] },
   { conditions := [{ symptom := "headache", severity := some .moderate,
                      bodyPart := none, duration := none, required := true },
                    { symptom := "headache", severity := none, bodyPart := none,
                      duration := some { min := 2, max := 999, unit := .days },
                      required := false }],
     riskLevel := .moderate, confidence := 0.6,
     reasoning := ["Persistent moderate headache may require medical evaluation"],
     recommendations := ["Consider seeing healthcare provider", "Keep headache diary"] },
   { conditions := [{ symptom := "headache", severity := some .mild,
                      bodyPart := none, duration := none, required := true }],
     riskLevel := .mild, confidence := 0.7,
     reasoning := ["Mild headache is usually manageable with self-care"],
     recommendations := ["Rest and hydration", "Over-the-counter pain relief if needed"] },
   { conditions := [{ symptom := "sore throat", severity := some .mild,
                      bodyPart := none, duration := none, required := true }],
     riskLevel := .mild, confidence := 0.7,
     reasoning := ["Mild sore throat often resolves with home care"],
     recommendations := ["Warm salt water gargle", "Stay hydrated", "Rest your voice"] },
   { conditions := [{ symptom := "runny nose", severity := none,
                      bodyPart := none, duration := none, required := true }],
     riskLevel := .mild, confidence := 0.8,
     reasoning := ["Runny nose typically indicates minor cold or allergies"],
     recommendations := ["Rest and fluids", "Saline nasal rinse", "Monitor for worsening"] }]

/-- The static symptom → base-risk-tier table of initializeSymptomSeverityMap. -/
def symptomSeverityMap : List (String × RiskLevel) :=
  [("chest pain", .emergency), ("shortness of breath", .emergency),
   ("difficulty breathing", .emergency),
   ("fever", .moderate), ("stomach pain", .moderate),
   ("dizziness", .moderate), ("fatigue", .moderate),
   ("headache", .mild), ("sore throat", .mild), ("runny nose", .mild),
   ("cough", .mild), ("nausea", .mild)]

/-- `this.symptomSeverityMap.get(symptom.symptom) || RiskLevel.MILD`. -/
def baseRiskOf (symptom : String) : RiskLevel :=
  ((symptomSeverityMap.find? (fun p => p.1 = symptom)).map Prod.snd).getD .mild

/-- First emergency keyword contained (case-insensitively) in a symptom's name. -/
def keywordHit (s : SymptomEntity) : Option String :=
  emergencyKeywords.find? (fun k => containsCI s.symptom k)

/-- The keyword scan of checkEmergencyConditions: first symptom/keyword hit wins. -/
def firstEmergencyKeyword : List SymptomEntity → Option String
  | [] => none
  | s :: rest =>
    match keywordHit s with
    | some k => some k
    | none => firstEmergencyKeyword rest

/-- The criticalSymptoms filter predicate of checkEmergencyConditions. -/
def isCriticalSevere (s : SymptomEntity) : Bool :=
  (strContains s.symptom "chest" && s.severity = SeverityLevel.severe) ||
  (strContains s.symptom "breath" && s.severity = SeverityLevel.severe) ||
  (strContains s.symptom "heart" && s.severity = SeverityLevel.severe)

def checkEmergencyConditions (symptoms : List SymptomEntity) : Option RiskAssessment :=
  match firstEmergencyKeyword symptoms with
  | some k =>
    some { level := .emergency, confidence := 0.95,
           reasoning := ["Emergency keyword detected: " ++ k],
           recommendations := ["Contact emergency services immediately",
                               "Do not delay seeking medical attention"] }
  | none =>
    if symptoms.any isCriticalSevere then
      some { level := .emergency, confidence := 0.9,
             reasoning := ["Severe symptoms in critical body systems detected"],
             recommendations := ["Seek immediate emergency medical care",
                                 "Call emergency services or go to nearest emergency room"] }
    else none

def convertToHours (d : Duration) : ℚ :=
  match d.unit with
  | .minutes => d.value / 60
  | .hours => d.value
  | .days => d.value * 24
  | .weeks => d.value * 24 * 7

def checkDurationMatch (symptomDuration : Duration) (conditionDuration : DurationRange) : Bool :=
  let symptomHours := convertToHours symptomDuration
  let minHours := convertToHours { value := conditionDuration.min, unit := conditionDuration.unit }
  let maxHours := convertToHours { value := conditionDuration.max, unit := conditionDuration.unit }
  minHours ≤ symptomHours ∧ symptomHours ≤ maxHours

/-- `symptoms.filter(s => s.symptom.toLowerCase().includes(condition.symptom.toLowerCase()))`:
the membership test of calculateRuleMatch. -/
def conditionMatches (c : RiskCondition) (s : SymptomEntity) : Bool :=
  containsCI s.symptom c.symptom

/-- Per-condition score of calculateRuleMatch before the `min(…, 1.0)` cap:
0.5 base + 0.3 severity + 0.2 body part + 0.2 duration-range bonuses, computed
against the first name-matching symptom. -/
def conditionScore (c : RiskCondition) (s : SymptomEntity) : ℚ :=
  0.5 +
  (match c.severity with
   | some sev => if s.severity = sev then 0.3 else 0
   | none => 0) +
  (match c.bodyPart with
   | some bp => if s.bodyPart = some bp then 0.2 else 0
   | none => 0) +
  (match c.duration, s.duration with
   | some dr, some d => if checkDurationMatch d dr then 0.2 else 0
   | _, _ => 0)

/-- The condition loop of calculateRuleMatch: accumulates totalScore and
requiredMatches, returning `none` on the early `return 0` for an unmatched
required condition. -/
def ruleMatchLoop (symptoms : List SymptomEntity) :
    List RiskCondition → ℚ → Nat → Option (ℚ × Nat)
  | [], total, reqm => some (total, reqm)
  | c :: rest, total, reqm =>
    match symptoms.find? (fun s => conditionMatches c s) with
    | some s =>
      ruleMatchLoop symptoms rest (total + min (conditionScore c s) 1)
        (if c.required then reqm + 1 else reqm)
    | none =>
      if c.required then none else ruleMatchLoop symptoms rest total reqm

def calculateRuleMatch (symptoms : List SymptomEntity) (rule : RiskRule) : ℚ :=
  let requiredConditions := (rule.conditions.filter (·.required)).length
  match ruleMatchLoop symptoms rule.conditions 0 0 with
  | none => 0
  | some (total, reqm) =>
    if reqm < requiredConditions then 0 else total / rule.conditions.length

/-- One step of the bestMatch accumulation of applyRiskRules: keep the rule
when its score beats the threshold and the incumbent. -/
def bestRuleStep (symptoms : List SymptomEntity) (rule : RiskRule)
    (best : Option (RiskRule × ℚ)) : Option (RiskRule × ℚ) :=
  if decide (calculateRuleMatch symptoms rule > 0.5) &&
      (match best with
       | none => true
       | some b => decide (calculateRuleMatch symptoms rule > b.2)) then
    some (rule, calculateRuleMatch symptoms rule)
  else best

/-- The bestMatch accumulation loop of applyRiskRules. -/
def bestRuleLoop (symptoms : List SymptomEntity) :
    List RiskRule → Option (RiskRule × ℚ) → Option (RiskRule × ℚ)
  | [], best => best
  | rule :: rest, best => bestRuleLoop symptoms rest (bestRuleStep symptoms rule best)

def applyRiskRules (symptoms : List SymptomEntity) : Option RiskAssessment :=
  (bestRuleLoop symptoms riskRules none).map fun best =>
    { level := best.1.riskLevel, confidence := best.1.confidence * best.2,
      reasoning := best.1.reasoning, recommendations := best.1.recommendations }

def escalateRiskLevel : RiskLevel → RiskLevel
  | .mild => .moderate
  | .moderate => .emergency
  | .emergency => .emergency

def getRiskLevelPriority : RiskLevel → Nat
  | .mild => 1
  | .moderate => 2
  | .emergency => 3

/-- The per-symptom tier adjustment of assessBySymptomSeverity: severe escalates
one tier; moderate severity lifts a mild base tier to moderate. -/
def adjustedRisk (s : SymptomEntity) : RiskLevel :=
  let baseRisk := baseRiskOf s.symptom
  if s.severity = SeverityLevel.severe then escalateRiskLevel baseRisk
  else if s.severity = SeverityLevel.moderate ∧ baseRisk = RiskLevel.mild then .moderate
  else baseRisk

/-- The symptom loop of assessBySymptomSeverity: running max tier, summed
confidence and reasoning entries. -/
def severityLoop : List SymptomEntity → RiskLevel → ℚ → List String →
    RiskLevel × ℚ × List String
  | [], maxRisk, total, reasoning => (maxRisk, total, reasoning)
  | s :: rest, maxRisk, total, reasoning =>
    let adjusted := adjustedRisk s
    let maxRisk2 :=
      if getRiskLevelPriority maxRisk < getRiskLevelPriority adjusted then adjusted else maxRisk
    severityLoop rest maxRisk2 (total + s.confidence)
      (reasoning ++ [s.symptom ++ " (" ++ s.severity.str ++ " severity)"])

/-- The recommendations switch of assessBySymptomSeverity. -/
def severityRecommendations : RiskLevel → List String
  | .emergency => ["Seek immediate medical attention", "Contact emergency services"]
  | .moderate => ["Consult healthcare provider within 24-48 hours", "Monitor symptoms for changes"]
  | .mild => ["Self-care measures may be appropriate",
              "Contact healthcare provider if symptoms worsen"]

def assessBySymptomSeverity (symptoms : List SymptomEntity) : RiskAssessment :=
  let result := severityLoop symptoms .mild 0 []
  { level := result.1,
    confidence := min (result.2.1 / symptoms.length) 1,
    reasoning := result.2.2,
    recommendations := severityRecommendations result.1 }

def classifyRisk (symptoms : List SymptomEntity) : RiskAssessment :=
  if symptoms.isEmpty then
    { level := .mild, confidence := 0.3,
      reasoning := ["No specific symptoms identified"],
      recommendations := ["Please describe your symptoms in more detail"] }
  else
    match checkEmergencyConditions symptoms with
    | some emergencyAssessment => emergencyAssessment
    | none =>
      match applyRiskRules symptoms with
      | some ruleBasedAssessment => ruleBasedAssessment
      | none => assessBySymptomSeverity symptoms

/-- Per-condition score as the specification words it: 0 when no symptom
matches the condition's name, else the capped bonus sum computed against the
first name-matching symptom. -/
def specConditionScore (symptoms : List SymptomEntity) (c : RiskCondition) : ℚ :=
  match symptoms.find? (fun s => conditionMatches c s) with
  | none => 0
  | some s => min (conditionScore c s) 1

/-- Some condition marked required is satisfied by no symptom. -/
def requiredUnsatisfied (symptoms : List SymptomEntity) (rule : RiskRule) : Bool :=
  rule.conditions.any fun c => c.required && !(symptoms.any fun s => conditionMatches c s)

/-- A rule's match score as the specification words it: the average of the
per-condition scores, except 0 when a required condition is unsatisfied. -/
def specRuleScore (symptoms : List SymptomEntity) (rule : RiskRule) : ℚ :=
  if requiredUnsatisfied symptoms rule then 0
  else ((rule.conditions.map (specConditionScore symptoms)).sum) / rule.conditions.length

/-- One step of the running-maximum tier fold of assessBySymptomSeverity. -/
def maxRiskStep (m : RiskLevel) (s : SymptomEntity) : RiskLevel :=
  if getRiskLevelPriority m < getRiskLevelPriority (adjustedRisk s) then adjustedRisk s else m

end RiskClassifier

/-! ## Safety guardian (SafetyGuardianImpl, src/SafetyGuardian.ts) -/

namespace SafetyGuardian

/-- SAFETY_CONSTRAINTS.requiredDisclaimers (src/constants.ts). -/
def requiredDisclaimers : List String :=
  ["This system does not provide medical diagnosis",
   "Please consult a healthcare professional for medical advice",
   "In case of emergency, contact emergency services immediately"]

/-- The guardian's full disclaimer pool: requiredDisclaimers followed by the
additional disclaimers of initializeMedicalDisclaimers. -/
def medicalDisclaimers : List String :=
  requiredDisclaimers ++
  ["This system provides general health information only and is not a substitute for professional medical advice.",
   "Always consult with qualified healthcare professionals for medical concerns and treatment decisions.",
   "In case of medical emergency, contact emergency services immediately.",
   "This guidance is for informational purposes only and should not replace professional medical consultation."]

/-- SAFETY_CONSTRAINTS.prohibitedAdvice: the configured prohibited-term list
(src/constants.ts). -/
def prohibitedAdvice : List String :=
  ["take medication", "dosage", "prescription", "drug",
   "medicine name", "pills", "tablets"]

/-- The guardian's prohibited-term `Set` in JS insertion order (duplicates
"prescription" and "medicine name" of the additional list collapse into the
first occurrence). -/
def prohibitedTerms : List String :=
  prohibitedAdvice ++
  ["diagnosis", "diagnose", "disease", "condition",
   "prescribe", "medication dosage",
   "take pills", "drug name",
   "treatment plan", "medical treatment",
   "cure", "heal", "fix", "solve",
   "definitely have", "certainly have", "you have",
   "suffering from", "infected with", "sick with"]

/-- JS `\s` on the repository's ASCII text. -/
def wsCharJS (c : Char) : Bool :=
  c = ' ' || c = '\t' || c = '\n' || c = '\r' || c = '\x0b' || c = '\x0c'

/-- A character the regex class `[a-z\s]` accepts. -/
def diseaseClassChar (c : Char) : Bool := ('a' ≤ c && c ≤ 'z') || wsCharJS c

/-- A character JS regex `.` accepts (anything but a line terminator). -/
def dotChar (c : Char) : Bool := !(c = '\n' || c = '\r')

def digitChar (c : Char) : Bool := '0' ≤ c && c ≤ '9'

/-- `lit` occurs in `l` starting at some `j ≥ start` with only `.`-matchable
characters between `start` and `j` (the `.*lit` tail of a regex). -/
def existsLitFrom (lit : List Char) (l : List Char) (start : Nat) : Bool :=
  (List.range (l.length + 1)).any fun j =>
    decide (start ≤ j) && isPrefixL lit (l.drop j) &&
      ((l.drop start).take (j - start)).all dotChar

/-- `/you have [a-z\s]+ disease/` on an (already lowercased) text. -/
def youHaveDiseasePattern (l : List Char) : Bool :=
  (List.range (l.length + 1)).any fun i =>
    isPrefixL "you have ".data (l.drop i) &&
      ((List.range (l.length + 1)).any fun j =>
        decide (i + 10 ≤ j) && isPrefixL " disease".data (l.drop j) &&
          ((l.drop (i + 9)).take (j - (i + 9))).all diseaseClassChar)

/-- The diagnosisPatterns check of validateResponse, on the lowercased response
(all five patterns carry the `/i` flag). -/
def diagnosisLanguage (l : List Char) : Bool :=
  youHaveDiseasePattern l ||
  hasInfixL "you are diagnosed with".data l ||
  hasInfixL "this is definitely".data l ||
  hasInfixL "you suffer from".data l ||
  hasInfixL "you are sick with".data l

/-- `/take \d+.*mg/` on a lowercased text. -/
def takeMgPattern (l : List Char) : Bool :=
  (List.range (l.length + 1)).any fun i =>
    isPrefixL "take ".data (l.drop i) &&
      (match l.drop (i + 5) with
       | d :: _ => digitChar d
       | [] => false) &&
      existsLitFrom "mg".data l (i + 6)

/-- `/take.*pills?/` on a lowercased text. -/
def takePillsPattern (l : List Char) : Bool :=
  (List.range (l.length + 1)).any fun i =>
    isPrefixL "take".data (l.drop i) && existsLitFrom "pill".data l (i + 4)

/-- `/medication.*times? per day/` on a lowercased text. -/
def medicationTimesPattern (l : List Char) : Bool :=
  (List.range (l.length + 1)).any fun i =>
    isPrefixL "medication".data (l.drop i) &&
      (existsLitFrom "times per day".data l (i + 10) ||
       existsLitFrom "time per day".data l (i + 10))

/-- The prescriptionPatterns check of validateResponse, on the lowercased
response. -/
def prescriptionLanguage (l : List Char) : Bool :=
  takeMgPattern l ||
  hasInfixL "prescribed medication".data l || hasInfixL "prescribe medication".data l ||
  hasInfixL "dosage of".data l ||
  takePillsPattern l ||
  medicationTimesPattern l

/-- `disclaimer.toLowerCase().substring(0, 20)`. -/
def disclaimerFrag (d : String) : List Char := (lowerL d.data).take 20

/-- The hasDisclaimer test shared by validateResponse and addMedicalDisclaimer:
the text contains the first 20 characters of some configured disclaimer. -/
def hasRequiredDisclaimerFrag (text : String) : Bool :=
  requiredDisclaimers.any fun d => hasInfixL (disclaimerFrag d) (lowerL text.data)

def validateResponse (response : String) : Bool × List String :=
  let lowerResponse := lowerL response.data
  let violations :=
    (prohibitedTerms.filterMap fun term =>
      if hasInfixL (lowerL term.data) lowerResponse then
        some ("Contains prohibited medical term: " ++ term)
      else none) ++
    (if diagnosisLanguage lowerResponse then ["Contains diagnostic language"] else []) ++
    (if prescriptionLanguage lowerResponse then ["Contains prescription advice"] else []) ++
    (if !hasRequiredDisclaimerFrag response && decide (50 < response.data.length) then
      ["Missing required medical disclaimer"]
     else [])
  (violations.isEmpty, violations)

/-- addMedicalDisclaimer; `pick` models the `Math.random()` index into the
configured disclaimer pool (`Math.floor(Math.random() * n) = pick % n`). -/
def addMedicalDisclaimer (pick : Nat) (response : String) : String :=
  if hasRequiredDisclaimerFrag response then response
  else
    let lowerResponse := lowerL response.data
    let selectedDisclaimer :=
      if hasInfixL "emergency".data lowerResponse || hasInfixL "urgent".data lowerResponse then
        "This guidance is for informational purposes only. In emergency situations, contact emergency services immediately."
      else if hasInfixL "recommend".data lowerResponse || hasInfixL "suggest".data lowerResponse then
        "This system provides general guidance only and cannot replace professional medical advice."
      else
        requiredDisclaimers.getD (pick % requiredDisclaimers.length) ""
    response ++ " " ++ selectedDisclaimer

/-- The phrase → safe-paraphrase replacement map of filterProhibitedContent,
in insertion order. -/
def phraseReplacements : List (String × String) :=
  [("take medication", "consider consulting a healthcare provider about treatment options"),
   ("dosage", "appropriate treatment"),
   ("prescription", "medical treatment"),
   ("drug", "treatment"),
   ("pills", "medication"),
   ("tablets", "treatment"),
   ("you have", "your symptoms suggest"),
   ("diagnosed with", "symptoms consistent with"),
   ("definitely", "possibly"),
   ("certainly", "likely")]

/-- Case-insensitive global replacement of a literal phrase, left to right and
non-overlapping (JS `replace(new RegExp(p, "gi"), r)`).  Structural recursion
on a fuel argument (each step consumes at least one character, so fuel equal to
the text length never runs out); written this way so the kernel can evaluate it
on concrete inputs. -/
def replaceAllCIFuel (needle repl : List Char) : Nat → List Char → List Char
  | 0, l => l
  | fuel + 1, l =>
    match l with
    | [] => []
    | c :: cs =>
      if needle.isEmpty then c :: cs
      else if isPrefixL (lowerL needle) (lowerL (c :: cs)) then
        repl ++ replaceAllCIFuel needle repl fuel ((c :: cs).drop needle.length)
      else c :: replaceAllCIFuel needle repl fuel cs

def replaceAllCI (needle repl l : List Char) : List Char :=
  replaceAllCIFuel needle repl l.length l

/-- JS `\w`. -/
def isWordChar (c : Char) : Bool :=
  ('a' ≤ c && c ≤ 'z') || ('A' ≤ c && c ≤ 'Z') || ('0' ≤ c && c ≤ '9') || c = '_'

/-- Rewrite every maximal `\w`-run of `l` through `f` (identity on non-word
characters): the shape of a `\b\w+…\b` global regex replacement.  Fuel-based
structural recursion as for `replaceAllCIFuel`. -/
def mapWordRunsFuel (f : List Char → List Char) : Nat → List Char → List Char
  | 0, l => l
  | fuel + 1, l =>
    match l with
    | [] => []
    | c :: cs =>
      if isWordChar c then
        f (c :: cs.takeWhile isWordChar) ++ mapWordRunsFuel f fuel (cs.dropWhile isWordChar)
      else c :: mapWordRunsFuel f fuel cs

def mapWordRuns (f : List Char → List Char) (l : List Char) : List Char :=
  mapWordRunsFuel f l.length l

def endsWithCI (w suffix : List Char) : Bool :=
  isPrefixL (lowerL suffix).reverse (lowerL w).reverse

/-- The medicationPatterns of filterProhibitedContent as word predicates, in
source order: `\b\w+cillin\b`, `\b\w+prazole\b`, then the literal drug names,
all case-insensitive. -/
def medicationWordPatterns : List (List Char → Bool) :=
  [fun w => decide (7 ≤ w.length) && endsWithCI w "cillin".data,
   fun w => decide (8 ≤ w.length) && endsWithCI w "prazole".data,
   fun w => lowerL w = "ibuprofen".data,
   fun w => lowerL w = "acetaminophen".data,
   fun w => lowerL w = "aspirin".data,
   fun w => lowerL w = "tylenol".data,
   fun w => lowerL w = "advil".data]

def filterProhibitedContent (text : String) : String :=
  let afterPhrases :=
    phraseReplacements.foldl (fun acc pr => replaceAllCI pr.1.data pr.2.data acc) text.data
  let afterMeds :=
    medicationWordPatterns.foldl
      (fun acc p => mapWordRuns (fun w => if p w then "appropriate medication".data else w) acc)
      afterPhrases
  String.mk afterMeds

def enforceEmergencyProtocol (assessment : RiskAssessment) : RiskAssessment :=
  if assessment.level ≠ RiskLevel.emergency then assessment
  else
    let recs0 := assessment.recommendations
    let hasEmergencyContact := recs0.any fun r =>
      hasInfixL "911".data (lowerL r.data) ||
      hasInfixL "emergency services".data (lowerL r.data) ||
      hasInfixL "call emergency".data (lowerL r.data)
    let recs1 :=
      if hasEmergencyContact then recs0
      else "Contact emergency services immediately by calling 911" :: recs0
    let hasUrgencyMessage := recs1.any fun r =>
      hasInfixL "immediately".data (lowerL r.data) ||
      hasInfixL "do not delay".data (lowerL r.data) ||
      hasInfixL "urgent".data (lowerL r.data)
    let recs2 :=
      if hasUrgencyMessage then recs1 else recs1 ++ ["Do not delay seeking medical attention"]
    { assessment with
      confidence := max assessment.confidence 0.85,
      recommendations := recs2,
      reasoning := assessment.reasoning ++ ["Emergency protocol enforced by safety guardian"] }

/-- The fixed fallback template keyed by risk level (generateFallbackResponse's
switch; the enum has exactly the three levels, so the `default` arm of the
source is unreachable). -/
def fallbackTemplate : RiskLevel → String
  | .emergency => "Based on your symptoms, this appears to be a serious condition requiring immediate medical attention. Please contact emergency services right away."
  | .moderate => "Your symptoms suggest you should consult with a healthcare professional for proper evaluation and guidance."
  | .mild => "Your symptoms appear to be mild. Consider rest and monitoring your condition, but consult a healthcare provider if symptoms worsen."

def generateFallbackResponse (pick : Nat) (assessment : RiskAssessment) : String :=
  addMedicalDisclaimer pick (fallbackTemplate assessment.level)

def generateSafeResponse (pick1 pick2 : Nat) (originalResponse : String)
    (assessment : RiskAssessment) : String :=
  let filtered := filterProhibitedContent originalResponse
  let safeResponse := addMedicalDisclaimer pick1 filtered
  if (validateResponse safeResponse).1 then safeResponse
  else generateFallbackResponse pick2 assessment

end SafetyGuardian

/-! ## Natural-language processor (NLProcessorImpl): intent detection -/

namespace NLProcessor

/-- JS whitespace for `trim` on the repository's ASCII text. -/
def wsChar (c : Char) : Bool :=
  c = ' ' || c = '\t' || c = '\n' || c = '\r' || c = '\x0b' || c = '\x0c'

/-- JS `String.trim`. -/
def trimL (l : List Char) : List Char :=
  ((l.dropWhile wsChar).reverse.dropWhile wsChar).reverse

/-- `text.toLowerCase().trim()`. -/
def normalize (text : String) : String := String.mk (trimL (lowerL text.data))

/-- Does the text match any of a list of literal alternatives?  (The source's
intent regexes are alternations of literal phrases, so a regex is modelled by
the list of its alternatives.) -/
def matchesAny (alts : List String) (t : String) : Bool :=
  alts.any fun p => strContains t p

/-- The unknownPatterns of detectIntent (each source regex is a literal
substring test). -/
def unknownPatterns : List String :=
  ["i don\x27t know", "not sure", "don\x27t understand", "confused",
   "unclear", "can\x27t tell", "hard to say", "not certain",
   "maybe", "i think", "possibly", "unsure"]

/-- `/i (have|feel|am experiencing|got)/` etc: the DESCRIBE_SYMPTOMS regex
group, each regex expanded into its literal alternatives. -/
def describePatterns : List (List String) :=
  [["i have", "i feel", "i am experiencing", "i got"],
   ["my head hurts", "my head aches", "my head feels",
    "my chest hurts", "my chest aches", "my chest feels",
    "my stomach hurts", "my stomach aches", "my stomach feels",
    "my throat hurts", "my throat aches", "my throat feels",
    "my back hurts", "my back aches", "my back feels"],
   ["i\x27ve been feeling", "i\x27ve been having", "i\x27ve been experiencing"],
   ["there\x27s pain", "there\x27s ache", "there\x27s discomfort"]]

def endSessionPatterns : List (List String) :=
  [["goodbye", "bye", "end", "stop", "quit", "exit", "done", "finished"],
   ["that\x27s all"],
   ["thank you"]]

def requestHelpPatterns : List (List String) :=
  [["help", "assist", "what should i do", "what do you recommend"],
   ["can you help", "need help", "don\x27t know"]]

def askClarificationPatterns : List (List String) :=
  [["what do you mean", "can you repeat", "i don\x27t understand"],
   ["clarify", "explain", "what"]]

/-- The intentPatterns map in insertion order (initializePatterns). -/
def intentPatterns : List (UserIntent × List (List String)) :=
  [(.describe_symptoms, describePatterns),
   (.end_session, endSessionPatterns),
   (.request_help, requestHelpPatterns),
   (.ask_clarification, askClarificationPatterns)]

/-- The symptom-keyword table of initializeKeywords. -/
def symptomKeywords : List (String × List String) :=
  [("headache", ["headache", "head pain", "head ache", "migraine", "head hurts"]),
   ("fever", ["fever", "temperature", "hot", "burning up", "feverish", "chills"]),
   ("cough", ["cough", "coughing", "hacking", "throat clearing"]),
   ("stomach pain", ["stomach pain", "stomach ache", "belly pain", "abdominal pain", "tummy ache"]),
   ("nausea", ["nausea", "nauseous", "sick to stomach", "queasy", "feel like vomiting"]),
   ("dizziness", ["dizzy", "dizziness", "lightheaded", "spinning", "vertigo"]),
   ("fatigue", ["tired", "fatigue", "exhausted", "weak", "no energy"]),
   ("sore throat", ["sore throat", "throat pain", "throat hurts", "scratchy throat"]),
   ("runny nose", ["runny nose", "stuffy nose", "congestion", "blocked nose"]),
   ("shortness of breath", ["shortness of breath", "hard to breathe", "difficulty breathing", "breathless"])]

def containsSymptomKeywords (t : String) : Bool :=
  symptomKeywords.any fun entry => entry.2.any fun keyword => strContains t keyword

/-- The `for (const [intent, patterns] of this.intentPatterns)` loop. -/
def findIntentLoop (t : String) : List (UserIntent × List (List String)) → Option UserIntent
  | [] => none
  | (intent, patterns) :: rest =>
    if patterns.any (fun p => matchesAny p t) then some intent else findIntentLoop t rest

def detectIntent (text : String) : UserIntent :=
  let normalizedText := normalize text
  if unknownPatterns.any (fun p => strContains normalizedText p) then .unknown
  else
    match findIntentLoop normalizedText intentPatterns with
    | some intent => intent
    | none =>
      if containsSymptomKeywords normalizedText then .describe_symptoms
      else .request_help

/-- detectIntent as the specification words it: the unknown check short-circuits
first, then the groups are tried in the fixed priority order
describe_symptoms > end_session > request_help > ask_clarification, then the
symptom-keyword fallback decides between describe_symptoms and request_help. -/
def detectIntentSpec (text : String) : UserIntent :=
  let t := normalize text
  if unknownPatterns.any (fun p => strContains t p) then .unknown
  else if describePatterns.any (fun p => matchesAny p t) then .describe_symptoms
  else if endSessionPatterns.any (fun p => matchesAny p t) then .end_session
  else if requestHelpPatterns.any (fun p => matchesAny p t) then .request_help
  else if askClarificationPatterns.any (fun p => matchesAny p t) then .ask_clarification
  else if containsSymptomKeywords t then .describe_symptoms
  else .request_help

end NLProcessor

/-! ## Ambiguity detector (AmbiguityDetectorImpl, src/AmbiguityDetector.ts) -/

namespace AmbiguityDetector

/-- The result shape of NLProcessorImpl.analyzeTextComplexity. -/
structure TextAnalysis where
  hasSymptoms : Bool
  hasBodyPart : Bool
  hasSeverity : Bool
  hasDuration : Bool
  isAmbiguous : Bool
deriving DecidableEq, Repr

def uncertaintyMarkers : List String :=
  ["maybe", "might", "could be", "not sure", "think", "possibly"]

/-- `text.trim().split(' ').length` (splitting on single blanks). -/
def wordCount (text : String) : Nat :=
  ((NLProcessor.trimL text.data).count ' ') + 1

/-- getAmbiguityScore with the `analyzeTextComplexity(text)` call abstracted as
the `analysis` argument (the detector consumes only its boolean fields).  In
the source `avgConfidence` is `NaN` for an empty symptom list and `NaN < 0.5`
is false, so the low-confidence bonus fires only for non-empty lists. -/
def getAmbiguityScoreWith (analysis : TextAnalysis) (text : String)
    (symptoms : List SymptomEntity) : ℚ :=
  let s1 : ℚ := if symptoms.isEmpty then 0.8 else 0
  let avgConfidence : ℚ := (symptoms.map (·.confidence)).sum / symptoms.length
  let s2 : ℚ := if symptoms.isEmpty = false ∧ avgConfidence < 0.5 then 0.4 else 0
  let s3 : ℚ := if analysis.hasBodyPart then 0 else 0.2
  let s4 : ℚ := if analysis.hasSeverity then 0 else 0.2
  let s5 : ℚ := if analysis.hasDuration then 0 else 0.1
  let s6 : ℚ := if wordCount text < 3 then 0.3 else 0
  let s7 : ℚ :=
    if uncertaintyMarkers.any (fun m => strContains (lowerStr text) m) then 0.2 else 0
  min (s1 + s2 + s3 + s4 + s5 + s6 + s7) 1

end AmbiguityDetector

/-! ## Session controller (SessionControllerImpl, src/unnamed/part_010) -/

namespace SessionController

inductive TurnType
  | user_input
  | system_response
  | clarification_question
deriving DecidableEq, Repr

/-- A conversation turn; timestamps are epoch milliseconds. -/
structure ConversationTurn where
  timestamp : Nat
  type : TurnType
  content : String
  processedSymptoms : Option (List SymptomEntity)
deriving DecidableEq, Repr

structure HealthSession where
  id : String
  startTime : Nat
  endTime : Option Nat
  symptoms : List SymptomEntity
  riskAssessment : Option RiskAssessment
  conversationHistory : List ConversationTurn
  status : SessionStatus
deriving DecidableEq, Repr

/-- The controller's mutable state: the `sessions` map (insertion-ordered
association list) and the keys of the `sessionTimeouts` map (the timer objects
themselves carry no session data). -/
structure ControllerState where
  sessions : List (String × HealthSession)
  sessionTimeouts : List String
deriving DecidableEq, Repr

def mapLookup (sid : String) (m : List (String × HealthSession)) : Option HealthSession :=
  (m.find? (fun p => p.1 = sid)).map Prod.snd

/-- JS `Map.set`: replace in place when the key exists, else append. -/
def mapSet (sid : String) (s : HealthSession) (m : List (String × HealthSession)) :
    List (String × HealthSession) :=
  if (m.find? (fun p => p.1 = sid)).isSome then
    m.map fun p => if p.1 = sid then (p.1, s) else p
  else m ++ [(sid, s)]

/-- JS `Map.delete`. -/
def mapDelete (sid : String) (m : List (String × HealthSession)) :
    List (String × HealthSession) :=
  m.filter fun p => !(p.1 = sid : Bool)

/-- The data wipe of deleteSessionData before the entry is removed. -/
def clearSessionData (s : HealthSession) : HealthSession :=
  { s with symptoms := [], conversationHistory := [], riskAssessment := none }

def deleteSessionData (st : ControllerState) (sid : String) : ControllerState :=
  match mapLookup sid st.sessions with
  | none => st
  | some s =>
    { sessions := mapDelete sid (mapSet sid (clearSessionData s) st.sessions),
      sessionTimeouts := st.sessionTimeouts.filter fun t => !(t = sid : Bool) }

/-- endSession at wall-clock time `now`: a missing session only logs a warning
and returns; a live one is stamped, marked completed, given a final turn and
then erased by deleteSessionData. -/
def endSession (st : ControllerState) (sid : String) (now : Nat) :
    Except String Unit × ControllerState :=
  match mapLookup sid st.sessions with
  | none => (Except.ok (), st)
  | some s =>
    let s2 : HealthSession :=
      { s with
        endTime := some now,
        status := .completed,
        conversationHistory :=
          s.conversationHistory ++
            [{ timestamp := now, type := .system_response,
               content := "Session ended", processedSymptoms := none }] }
    let st2 : ControllerState := { st with sessions := mapSet sid s2 st.sessions }
    (Except.ok (), deleteSessionData st2 sid)

def getSessionById (st : ControllerState) (sid : String) : Option HealthSession :=
  mapLookup sid st.sessions

/-- The orchestrator-facing view of SessionContext. -/
structure SessionContext where
  symptoms : List SymptomEntity
  questionsAsked : Nat
  riskLevel : Option RiskLevel
  sessionDuration : Nat
deriving DecidableEq, Repr

def getSessionContext (st : ControllerState) (sid : String) (now : Nat) :
    Except String SessionContext :=
  match mapLookup sid st.sessions with
  | none => Except.error ("Session not found: " ++ sid)
  | some s =>
    Except.ok
      { symptoms := s.symptoms,
        questionsAsked :=
          (s.conversationHistory.filter fun turn =>
            turn.type = TurnType.clarification_question).length,
        riskLevel := s.riskAssessment.map (·.level),
        sessionDuration := (now - s.startTime) / 1000 }

/-- `Partial<SessionContext>`: a JS object whose fields may be absent; a `none`
`riskLevel` also covers a present-but-null value (both are falsy in
`if (context.riskLevel)`). -/
structure PartialSessionContext where
  symptoms : Option (List SymptomEntity)
  questionsAsked : Option Nat
  riskLevel : Option RiskLevel
  sessionDuration : Option Nat
deriving DecidableEq, Repr

def joinSymptomNames (symptoms : List SymptomEntity) : String :=
  String.intercalate ", " (symptoms.map (·.symptom))

def updateSessionContext (st : ControllerState) (sid : String) (now : Nat)
    (context : PartialSessionContext) : Except String Unit × ControllerState :=
  match mapLookup sid st.sessions with
  | none => (Except.error ("Session not found: " ++ sid), st)
  | some s =>
    let s2 : HealthSession :=
      match context.symptoms with
      | none => s
      | some newSymptoms =>
        { s with
          symptoms := newSymptoms,
          conversationHistory :=
            s.conversationHistory ++
              [{ timestamp := now, type := .user_input,
                 content := "Symptoms updated: " ++ joinSymptomNames newSymptoms,
                 processedSymptoms := some newSymptoms }] }
    let s3 :=
      match context.riskLevel, s2.riskAssessment with
      | some lvl, none =>
        { s2 with
          riskAssessment := some
            { level := lvl, confidence := 0.7,
              reasoning := ["Updated from session context"],
              recommendations := ["See conversation for details"] } }
      | _, _ => s2
    (Except.ok (), { st with sessions := mapSet sid s3 st.sessions })

/-- addConversationTurn: appends a turn and resets the session's idle timer. -/
def addConversationTurn (st : ControllerState) (sid : String) (turn : ConversationTurn) :
    Except String Unit × ControllerState :=
  match mapLookup sid st.sessions with
  | none => (Except.error ("Session not found: " ++ sid), st)
  | some s =>
    let s2 := { s with conversationHistory := s.conversationHistory ++ [turn] }
    (Except.ok (),
     { sessions := mapSet sid s2 st.sessions,
       sessionTimeouts := (st.sessionTimeouts.filter fun t => !(t = sid : Bool)) ++ [sid] })

/-- The duplicate test of addSymptoms: same symptom name and same body part. -/
def symptomExists (existing : List SymptomEntity) (n : SymptomEntity) : Bool :=
  existing.any fun e => e.symptom = n.symptom && e.bodyPart = n.bodyPart

def addSymptoms (st : ControllerState) (sid : String) (now : Nat)
    (symptoms : List SymptomEntity) : Except String Unit × ControllerState :=
  match mapLookup sid st.sessions with
  | none => (Except.error ("Session not found: " ++ sid), st)
  | some s =>
    let merged :=
      symptoms.foldl
        (fun acc newSymptom =>
          if symptomExists acc newSymptom then acc else acc ++ [newSymptom])
        s.symptoms
    let s2 := { s with symptoms := merged }
    let st2 := { st with sessions := mapSet sid s2 st.sessions }
    addConversationTurn st2 sid
      { timestamp := now, type := .user_input,
        content := "Added symptoms: " ++ joinSymptomNames symptoms,
        processedSymptoms := some symptoms }

/-- `Math.round` on a non-negative JS number. -/
def jsRound (q : ℚ) : ℤ := ⌊q + 1/2⌋

def setRiskAssessment (st : ControllerState) (sid : String) (now : Nat)
    (assessment : RiskAssessment) : Except String Unit × ControllerState :=
  match mapLookup sid st.sessions with
  | none => (Except.error ("Session not found: " ++ sid), st)
  | some s =>
    let s2 := { s with riskAssessment := some assessment }
    let st2 := { st with sessions := mapSet sid s2 st.sessions }
    addConversationTurn st2 sid
      { timestamp := now, type := .system_response,
        content :=
          "Risk assessment: " ++ assessment.level.str ++
            " (confidence: " ++ toString (jsRound (assessment.confidence * 100)) ++ "%)",
        processedSymptoms := none }

end SessionController

/-! ## Theorems for claims C1–C10 -/

open RiskClassifier SafetyGuardian

/-- A symptom whose keyword scan succeeds makes `firstEmergencyKeyword` succeed. -/
theorem firstEmergencyKeyword_isSome {symptoms : List SymptomEntity}
    {s : SymptomEntity} (hs : s ∈ symptoms) (hhit : (keywordHit s).isSome) :
    (firstEmergencyKeyword symptoms).isSome := by
  induction symptoms with
  | nil => cases hs
  | cons s0 rest ih =>
    rw [firstEmergencyKeyword]
    rcases List.mem_cons.mp hs with rfl | hmem
    · rw [Option.isSome_iff_exists] at hhit
      obtain ⟨k, hk⟩ := hhit
      rw [hk]
      rfl
    · cases h0 : keywordHit s0 with
      | some k => rfl
      | none => exact ih hmem

/-- When the keyword scan succeeds, classifyRisk returns the keyword-override
emergency assessment (confidence 0.95). -/
theorem classifyRisk_of_keyword {symptoms : List SymptomEntity} {k : String}
    (hne : symptoms ≠ []) (hk : firstEmergencyKeyword symptoms = some k) :
    classifyRisk symptoms =
      { level := .emergency, confidence := 0.95,
        reasoning := ["Emergency keyword detected: " ++ k],
        recommendations := ["Contact emergency services immediately",
                            "Do not delay seeking medical attention"] } := by
  have hemp : symptoms.isEmpty = false := by
    cases symptoms with
    | nil => exact absurd rfl hne
    | cons a l => rfl
  rw [classifyRisk, hemp]
  simp only [Bool.false_eq_true, if_false, checkEmergencyConditions, hk]

/-- Enforcing the emergency protocol floors the confidence of an
emergency-level assessment at 0.85. -/
theorem enforce_confidence_floor (a : RiskAssessment)
    (h : a.level = RiskLevel.emergency) :
    (0.85 : ℚ) ≤ (enforceEmergencyProtocol a).confidence := by
  rw [enforceEmergencyProtocol, if_neg (by simp [h])]
  exact le_max_right _ _

/-- C1.  For every symptom list in which some symptom's name contains a
configured emergency keyword as a case-insensitive substring, classifyRisk
returns level emergency regardless of any co-occurring mild symptoms, and the
assessment obtained by then applying enforceEmergencyProtocol has confidence
at least 0.85. -/
theorem emergency_keyword_dominance
    (symptoms : List SymptomEntity) (s : SymptomEntity) (k : String)
    (hs : s ∈ symptoms) (hk : k ∈ emergencyKeywords)
    (hhit : containsCI s.symptom k = true) :
    (classifyRisk symptoms).level = RiskLevel.emergency ∧
    (0.85 : ℚ) ≤ (enforceEmergencyProtocol (classifyRisk symptoms)).confidence := by
  have hfind : (keywordHit s).isSome := by
    rw [keywordHit, List.find?_isSome]
    exact ⟨k, hk, hhit⟩
  have hsome := firstEmergencyKeyword_isSome hs hfind
  rw [Option.isSome_iff_exists] at hsome
  obtain ⟨k0, hk0⟩ := hsome
  have hne : symptoms ≠ [] := List.ne_nil_of_mem hs
  rw [classifyRisk_of_keyword hne hk0]
  exact ⟨rfl, enforce_confidence_floor _ rfl⟩

/-- A concrete input for C1: a lone "chest pain" symptom at mild severity. -/
def sampleChestPain : SymptomEntity :=
  { symptom := "chest pain", bodyPart := none, severity := .mild,
    duration := none, confidence := 1 }

theorem emergency_keyword_dominance_witness :
    (classifyRisk [sampleChestPain]).level = RiskLevel.emergency ∧
    (0.85 : ℚ) ≤ (enforceEmergencyProtocol (classifyRisk [sampleChestPain])).confidence :=
  emergency_keyword_dominance [sampleChestPain] sampleChestPain "chest pain"
    (List.Mem.head _) (by decide) (by decide)

/-! ### Bounds and characterisations of the rule-matching machinery -/

theorem conditionScore_nonneg (c : RiskCondition) (s : SymptomEntity) :
    0 ≤ conditionScore c s := by
  obtain ⟨csym, csev, cbp, cdur, creq⟩ := c
  obtain ⟨ssym, sbp, ssev, sdur, sconf⟩ := s
  unfold conditionScore
  rcases csev with _ | sev <;> rcases cbp with _ | bp <;> rcases cdur with _ | dr <;>
      rcases sdur with _ | sd <;> dsimp only <;> (try split_ifs) <;> norm_num

theorem cappedScore_nonneg (c : RiskCondition) (s : SymptomEntity) :
    0 ≤ min (conditionScore c s) 1 :=
  le_min (conditionScore_nonneg c s) (by norm_num)

theorem ruleMatchLoop_bounds (symptoms : List SymptomEntity)
    (conds : List RiskCondition) :
    ∀ (total : ℚ) (reqm : Nat) (t : ℚ) (m : Nat),
      ruleMatchLoop symptoms conds total reqm = some (t, m) →
      total ≤ t ∧ t ≤ total + conds.length := by
  induction conds with
  | nil =>
    intro total reqm t m h
    rw [ruleMatchLoop] at h
    cases h
    simp
  | cons c rest ih =>
    intro total reqm t m h
    cases hf : symptoms.find? (fun s => conditionMatches c s) with
    | some s0 =>
      simp only [ruleMatchLoop, hf] at h
      have hb := ih _ _ _ _ h
      have h0 : 0 ≤ min (conditionScore c s0) 1 := cappedScore_nonneg c s0
      have h1 : min (conditionScore c s0) 1 ≤ 1 := min_le_right _ _
      refine ⟨by linarith [hb.1], ?_⟩
      have h2 := hb.2
      simp only [List.length_cons]
      push_cast
      push_cast at h2
      linarith
    | none =>
      simp only [ruleMatchLoop, hf] at h
      by_cases hr : c.required = true
      · rw [if_pos hr] at h
        cases h
      · rw [if_neg hr] at h
        have hb := ih _ _ _ _ h
        refine ⟨hb.1, ?_⟩
        have h2 := hb.2
        simp only [List.length_cons]
        push_cast
        push_cast at h2
        linarith

theorem calculateRuleMatch_nonneg (symptoms : List SymptomEntity) (rule : RiskRule) :
    0 ≤ calculateRuleMatch symptoms rule := by
  rw [calculateRuleMatch]
  cases hl : ruleMatchLoop symptoms rule.conditions 0 0 with
  | none => simp
  | some tm =>
    obtain ⟨t, m⟩ := tm
    have hb := ruleMatchLoop_bounds symptoms rule.conditions 0 0 t m hl
    dsimp only
    split_ifs
    · simp
    · exact div_nonneg (by linarith [hb.1]) (by positivity)

theorem calculateRuleMatch_le_one (symptoms : List SymptomEntity) (rule : RiskRule) :
    calculateRuleMatch symptoms rule ≤ 1 := by
  rw [calculateRuleMatch]
  cases hl : ruleMatchLoop symptoms rule.conditions 0 0 with
  | none => simp
  | some tm =>
    obtain ⟨t, m⟩ := tm
    have hb := ruleMatchLoop_bounds symptoms rule.conditions 0 0 t m hl
    dsimp only
    split_ifs
    · norm_num
    · rcases Nat.eq_zero_or_pos rule.conditions.length with hz | hp
      · rw [hz]
        have h1 : t ≤ 0 := by
          have := hb.2
          rw [hz] at this
          simpa using this
        have h2 : (0 : ℚ) ≤ t := by simpa using hb.1
        have : t = 0 := le_antisymm h1 h2
        simp [this]
      · have hlen : (0 : ℚ) < rule.conditions.length := by exact_mod_cast hp
        rw [div_le_one hlen]
        simpa using hb.2

theorem calculateRuleMatch_eq_zero_of_loop_none
    {symptoms : List SymptomEntity} {rule : RiskRule}
    (h : ruleMatchLoop symptoms rule.conditions 0 0 = none) :
    calculateRuleMatch symptoms rule = 0 := by
  rw [calculateRuleMatch, h]

theorem bestRuleStep_of_not_high {symptoms : List SymptomEntity} {rule : RiskRule}
    (h : ¬ (calculateRuleMatch symptoms rule > 0.5)) (best : Option (RiskRule × ℚ)) :
    bestRuleStep symptoms rule best = best := by
  unfold bestRuleStep
  simp [decide_eq_false h]

theorem bestRuleStep_none_of_high {symptoms : List SymptomEntity} {rule : RiskRule}
    (h : calculateRuleMatch symptoms rule > 0.5) :
    bestRuleStep symptoms rule none = some (rule, calculateRuleMatch symptoms rule) := by
  unfold bestRuleStep
  simp [decide_eq_true h]

theorem bestRuleStep_of_beat {symptoms : List SymptomEntity} {rule r0 : RiskRule} {m0 : ℚ}
    (h : calculateRuleMatch symptoms rule > 0.5)
    (hb : calculateRuleMatch symptoms rule > m0) :
    bestRuleStep symptoms rule (some (r0, m0)) =
      some (rule, calculateRuleMatch symptoms rule) := by
  unfold bestRuleStep
  simp [decide_eq_true h, decide_eq_true hb]

theorem bestRuleStep_of_not_beat {symptoms : List SymptomEntity} {rule r0 : RiskRule} {m0 : ℚ}
    (hb : ¬ (calculateRuleMatch symptoms rule > m0)) :
    bestRuleStep symptoms rule (some (r0, m0)) = some (r0, m0) := by
  unfold bestRuleStep
  simp [decide_eq_false hb]

/-- When no rule scores above the 0.5 threshold the best-match loop keeps its
accumulator untouched. -/
theorem bestRuleLoop_const_of_no_high (symptoms : List SymptomEntity)
    (rules : List RiskRule) :
    ∀ best, (∀ r ∈ rules, ¬ (calculateRuleMatch symptoms r > 0.5)) →
      bestRuleLoop symptoms rules best = best := by
  induction rules with
  | nil => intro best _; rw [bestRuleLoop]
  | cons r rest ih =>
    intro best hno
    rw [bestRuleLoop, bestRuleStep_of_not_high (hno r (List.mem_cons_self r rest))]
    exact ih best fun r2 h2 => hno r2 (List.mem_cons_of_mem r h2)

theorem applyRiskRules_none_of_no_high (symptoms : List SymptomEntity)
    (hno : ∀ r ∈ riskRules, ¬ (calculateRuleMatch symptoms r > 0.5)) :
    applyRiskRules symptoms = none := by
  rw [applyRiskRules, bestRuleLoop_const_of_no_high symptoms riskRules none hno]
  rfl

/-- Invariant of the best-match loop: a returned best rule scores above the
threshold, its score is maximal over the scanned rules, and it was scanned
(or carried in from the accumulator). -/
theorem bestRuleLoop_some_spec (symptoms : List SymptomEntity)
    (rules : List RiskRule) :
    ∀ (best : Option (RiskRule × ℚ)) (rule : RiskRule) (ms : ℚ),
      bestRuleLoop symptoms rules best = some (rule, ms) →
      (∀ r0 m0, best = some (r0, m0) →
        m0 = calculateRuleMatch symptoms r0 ∧ m0 > 0.5) →
      ((some (rule, ms) = best ∨ rule ∈ rules) ∧
       ms = calculateRuleMatch symptoms rule ∧ ms > 0.5 ∧
       (∀ r ∈ rules, calculateRuleMatch symptoms r ≤ ms) ∧
       (∀ r0 m0, best = some (r0, m0) → m0 ≤ ms)) := by
  induction rules with
  | nil =>
    intro best rule ms h hbest
    rw [bestRuleLoop] at h
    subst h
    obtain ⟨h1, h2⟩ := hbest rule ms rfl
    refine ⟨Or.inl rfl, h1, h2, by simp, ?_⟩
    intro r0 m0 h0
    cases h0
    exact le_refl _
  | cons r rest ih =>
    intro best rule ms h hbest
    rw [bestRuleLoop] at h
    by_cases hhigh : calculateRuleMatch symptoms r > 0.5
    · cases hb : best with
      | none =>
        subst hb
        rw [bestRuleStep_none_of_high hhigh] at h
        obtain ⟨hmem, h1, h2, h3, h4⟩ :=
          ih (some (r, calculateRuleMatch symptoms r)) rule ms h
            (by intro r0 m0 h0; cases h0; exact ⟨rfl, hhigh⟩)
        have hrms : calculateRuleMatch symptoms r ≤ ms := h4 r _ rfl
        refine ⟨?_, h1, h2, ?_, ?_⟩
        · rcases hmem with heq | hmem
          · cases heq
            exact Or.inr (List.mem_cons_self _ _)
          · exact Or.inr (List.mem_cons_of_mem r hmem)
        · intro r2 h2mem
          rcases List.mem_cons.mp h2mem with rfl | h2mem
          · exact hrms
          · exact h3 r2 h2mem
        · intro r0 m0 h0
          cases h0
      | some b =>
        obtain ⟨r0, m0⟩ := b
        subst hb
        obtain ⟨hm0, hm0half⟩ := hbest r0 m0 rfl
        by_cases hbeat : calculateRuleMatch symptoms r > m0
        · rw [bestRuleStep_of_beat hhigh hbeat] at h
          obtain ⟨hmem, h1, h2, h3, h4⟩ :=
            ih (some (r, calculateRuleMatch symptoms r)) rule ms h
              (by intro r1 m1 h0; cases h0; exact ⟨rfl, hhigh⟩)
          have hrms : calculateRuleMatch symptoms r ≤ ms := h4 r _ rfl
          refine ⟨?_, h1, h2, ?_, ?_⟩
          · rcases hmem with heq | hmem
            · cases heq
              exact Or.inr (List.mem_cons_self _ _)
            · exact Or.inr (List.mem_cons_of_mem r hmem)
          · intro r2 h2mem
            rcases List.mem_cons.mp h2mem with rfl | h2mem
            · exact hrms
            · exact h3 r2 h2mem
          · intro r1 m1 h0
            cases h0
            linarith
        · rw [bestRuleStep_of_not_beat hbeat] at h
          obtain ⟨hmem, h1, h2, h3, h4⟩ := ih (some (r0, m0)) rule ms h
            (by intro r1 m1 h0; cases h0; exact ⟨hm0, hm0half⟩)
          have hm0ms : m0 ≤ ms := h4 r0 m0 rfl
          refine ⟨?_, h1, h2, ?_, ?_⟩
          · rcases hmem with heq | hmem
            · exact Or.inl heq
            · exact Or.inr (List.mem_cons_of_mem r hmem)
          · intro r2 h2mem
            rcases List.mem_cons.mp h2mem with rfl | h2mem
            · linarith [not_lt.mp hbeat]
            · exact h3 r2 h2mem
          · intro r1 m1 h0
            cases h0
            exact hm0ms
    · rw [bestRuleStep_of_not_high hhigh] at h
      obtain ⟨hmem, h1, h2, h3, h4⟩ := ih best rule ms h hbest
      refine ⟨?_, h1, h2, ?_, h4⟩
      · rcases hmem with heq | hmem
        · exact Or.inl heq
        · exact Or.inr (List.mem_cons_of_mem r hmem)
      · intro r2 h2mem
        rcases List.mem_cons.mp h2mem with rfl | h2mem
        · linarith [not_lt.mp hhigh]
        · exact h3 r2 h2mem

/-- A successful rule stage selects a maximal above-threshold rule of the table
and scales its base confidence by the match score. -/
theorem applyRiskRules_some_spec {symptoms : List SymptomEntity} {a : RiskAssessment}
    (h : applyRiskRules symptoms = some a) :
    ∃ rule ∈ riskRules,
      calculateRuleMatch symptoms rule > 0.5 ∧
      (∀ r ∈ riskRules, calculateRuleMatch symptoms r ≤ calculateRuleMatch symptoms rule) ∧
      a = { level := rule.riskLevel,
            confidence := rule.confidence * calculateRuleMatch symptoms rule,
            reasoning := rule.reasoning,
            recommendations := rule.recommendations } := by
  rw [applyRiskRules] at h
  cases hb : bestRuleLoop symptoms riskRules none with
  | none => rw [hb] at h; cases h
  | some best =>
    obtain ⟨rule, ms⟩ := best
    rw [hb] at h
    obtain ⟨hmem, h1, h2, h3, _⟩ :=
      bestRuleLoop_some_spec symptoms riskRules none rule ms hb
        (by intro r0 m0 h0; cases h0)
    rcases hmem with heq | hmem
    · cases heq
    · refine ⟨rule, hmem, h1 ▸ h2, fun r hr => h1 ▸ h3 r hr, ?_⟩
      cases h
      rw [h1]

/-! ### The static rule table and the emergency/fallback stages -/

theorem riskRules_confidence_bounds :
    ∀ r ∈ riskRules, 0 < r.confidence ∧ r.confidence ≤ 1 := by
  intro r hr
  fin_cases hr <;> exact ⟨by norm_num, by norm_num⟩

theorem riskRules_texts_nonempty :
    ∀ r ∈ riskRules, r.reasoning ≠ [] ∧ r.recommendations ≠ [] := by
  intro r hr
  fin_cases hr <;> exact ⟨by decide, by decide⟩

/-- Shape of a successful emergency override: level emergency, confidence 0.95
(keyword hit) or 0.9 (severe critical-area symptom), non-empty texts. -/
theorem checkEmergencyConditions_some_spec {symptoms : List SymptomEntity}
    {a : RiskAssessment} (h : checkEmergencyConditions symptoms = some a) :
    a.level = RiskLevel.emergency ∧ (a.confidence = 0.95 ∨ a.confidence = 0.9) ∧
    a.reasoning ≠ [] ∧ a.recommendations ≠ [] := by
  rw [checkEmergencyConditions] at h
  cases hf : firstEmergencyKeyword symptoms with
  | some k =>
    rw [hf] at h
    cases h
    exact ⟨rfl, Or.inl rfl, by simp, by simp⟩
  | none =>
    rw [hf] at h
    by_cases hcrit : symptoms.any isCriticalSevere = true
    · rw [if_pos hcrit] at h
      cases h
      exact ⟨rfl, Or.inr rfl, by simp, by simp⟩
    · rw [if_neg hcrit] at h
      cases h

/-- The severity fallback loop, written out: the level is the running-maximum
fold, the confidence accumulator sums the symptom confidences, and one
reasoning entry is appended per symptom. -/
theorem severityLoop_spec (symptoms : List SymptomEntity) :
    ∀ (maxRisk : RiskLevel) (total : ℚ) (reasoning : List String),
      severityLoop symptoms maxRisk total reasoning =
        (symptoms.foldl maxRiskStep maxRisk,
         total + (symptoms.map (·.confidence)).sum,
         reasoning ++ symptoms.map fun s => s.symptom ++ " (" ++ s.severity.str ++ " severity)") := by
  induction symptoms with
  | nil => intro maxRisk total reasoning; simp [severityLoop]
  | cons s rest ih =>
    intro maxRisk total reasoning
    rw [severityLoop, ih]
    simp only [List.foldl_cons, List.map_cons, List.sum_cons, List.append_assoc,
      List.cons_append, List.nil_append, List.singleton_append, maxRiskStep]
    rw [add_assoc]

/-- The running-maximum fold dominates every adjusted tier, dominates its seed,
and is attained (or is the seed). -/
theorem foldl_maxRiskStep_spec (symptoms : List SymptomEntity) :
    ∀ m0 : RiskLevel,
      getRiskLevelPriority m0 ≤ getRiskLevelPriority (symptoms.foldl maxRiskStep m0) ∧
      (∀ s ∈ symptoms,
        getRiskLevelPriority (adjustedRisk s) ≤
          getRiskLevelPriority (symptoms.foldl maxRiskStep m0)) ∧
      (symptoms.foldl maxRiskStep m0 = m0 ∨
        ∃ s ∈ symptoms, adjustedRisk s = symptoms.foldl maxRiskStep m0) := by
  induction symptoms with
  | nil => intro m0; exact ⟨le_refl _, by simp, Or.inl rfl⟩
  | cons s rest ih =>
    intro m0
    simp only [List.foldl_cons]
    obtain ⟨ih1, ih2, ih3⟩ := ih (maxRiskStep m0 s)
    have hstep : getRiskLevelPriority m0 ≤ getRiskLevelPriority (maxRiskStep m0 s) := by
      rw [maxRiskStep]
      split_ifs with hlt
      · exact le_of_lt hlt
      · exact le_refl _
    have hadj : getRiskLevelPriority (adjustedRisk s) ≤
        getRiskLevelPriority (maxRiskStep m0 s) := by
      rw [maxRiskStep]
      split_ifs with hlt
      · exact le_refl _
      · exact le_of_not_lt hlt
    refine ⟨le_trans hstep ih1, ?_, ?_⟩
    · intro s2 hs2
      rcases List.mem_cons.mp hs2 with rfl | hs2
      · exact le_trans hadj ih1
      · exact ih2 s2 hs2
    · rcases ih3 with heq | ⟨s2, hs2, hadj2⟩
      · rw [heq]
        rw [maxRiskStep]
        split_ifs with hlt
        · exact Or.inr ⟨s, List.mem_cons_self _ _, rfl⟩
        · exact Or.inl rfl
      · exact Or.inr ⟨s2, List.mem_cons_of_mem s hs2, hadj2⟩

/-- A non-empty list is not `isEmpty`. -/
theorem isEmpty_false_of_ne_nil {α : Type} {l : List α} (h : l ≠ []) :
    l.isEmpty = false := by
  cases l with
  | nil => exact absurd rfl h
  | cons a t => rfl

/-- With the override and rule stages off, classifyRisk lands in the severity
fallback. -/
theorem classifyRisk_eq_fallback {symptoms : List SymptomEntity}
    (hne : symptoms ≠ [])
    (hemerg : checkEmergencyConditions symptoms = none)
    (hrules : applyRiskRules symptoms = none) :
    classifyRisk symptoms = assessBySymptomSeverity symptoms := by
  rw [classifyRisk, isEmpty_false_of_ne_nil hne]
  simp only [Bool.false_eq_true, if_false, hemerg, hrules]

/-- C3 (amended).  For every symptom list whose symptoms all carry positive
confidence (including the empty list), classifyRisk returns an assessment
whose level is exactly one of mild, moderate, emergency, whose confidence lies
in (0,1], and whose reasoning and recommendations lists are non-empty. -/
theorem total_classification (symptoms : List SymptomEntity)
    (hconf : ∀ s ∈ symptoms, 0 < s.confidence) :
    ((classifyRisk symptoms).level = RiskLevel.mild ∨
     (classifyRisk symptoms).level = RiskLevel.moderate ∨
     (classifyRisk symptoms).level = RiskLevel.emergency) ∧
    0 < (classifyRisk symptoms).confidence ∧
    (classifyRisk symptoms).confidence ≤ 1 ∧
    (classifyRisk symptoms).reasoning ≠ [] ∧
    (classifyRisk symptoms).recommendations ≠ [] := by
  have hlevel : ∀ lvl : RiskLevel,
      lvl = RiskLevel.mild ∨ lvl = RiskLevel.moderate ∨ lvl = RiskLevel.emergency := by
    intro lvl
    cases lvl
    · exact Or.inl rfl
    · exact Or.inr (Or.inl rfl)
    · exact Or.inr (Or.inr rfl)
  refine ⟨hlevel _, ?_⟩
  by_cases hemp : symptoms = []
  · subst hemp
    refine ⟨by norm_num [classifyRisk], by norm_num [classifyRisk], ?_, ?_⟩ <;>
      simp [classifyRisk]
  · cases hec : checkEmergencyConditions symptoms with
    | some a =>
      have hc : classifyRisk symptoms = a := by
        rw [classifyRisk, isEmpty_false_of_ne_nil hemp]
        simp only [Bool.false_eq_true, if_false, hec]
      obtain ⟨_, hconf2, hr, hrec⟩ := checkEmergencyConditions_some_spec hec
      rw [hc]
      rcases hconf2 with hcv | hcv <;> rw [hcv] <;>
        exact ⟨by norm_num, by norm_num, hr, hrec⟩
    | none =>
      cases har : applyRiskRules symptoms with
      | some a =>
        have hc : classifyRisk symptoms = a := by
          rw [classifyRisk, isEmpty_false_of_ne_nil hemp]
          simp only [Bool.false_eq_true, if_false, hec, har]
        obtain ⟨rule, hmem, hhigh, _, ha⟩ := applyRiskRules_some_spec har
        obtain ⟨hcpos, hcle⟩ := riskRules_confidence_bounds rule hmem
        obtain ⟨hrr, hrc⟩ := riskRules_texts_nonempty rule hmem
        have hms0 : (0 : ℚ) ≤ calculateRuleMatch symptoms rule :=
          calculateRuleMatch_nonneg symptoms rule
        have hms1 : calculateRuleMatch symptoms rule ≤ 1 :=
          calculateRuleMatch_le_one symptoms rule
        rw [hc, ha]
        refine ⟨?_, ?_, hrr, hrc⟩
        · have : (0 : ℚ) < calculateRuleMatch symptoms rule := by
            calc (0 : ℚ) < 0.5 := by norm_num
            _ < calculateRuleMatch symptoms rule := hhigh
          exact mul_pos hcpos this
        · calc rule.confidence * calculateRuleMatch symptoms rule
              ≤ 1 * 1 := by
                apply mul_le_mul hcle hms1 hms0
                norm_num
          _ = 1 := by norm_num
      | none =>
        rw [classifyRisk_eq_fallback hemp hec har]
        rw [assessBySymptomSeverity]
        rw [severityLoop_spec symptoms RiskLevel.mild 0 []]
        have hsum : 0 < ((symptoms.map (·.confidence)).sum) := by
          apply List.sum_pos
          · intro q hq
            obtain ⟨s, hs, rfl⟩ := List.mem_map.mp hq
            exact hconf s hs
          · simp [hemp]
        have hlen : (0 : ℚ) < symptoms.length := by
          have : 0 < symptoms.length := List.length_pos.mpr hemp
          exact_mod_cast this
        refine ⟨?_, ?_, ?_, ?_⟩
        · dsimp only
          rw [zero_add]
          exact lt_min (div_pos hsum hlen) (by norm_num)
        · exact min_le_right _ _
        · simp [hemp]
        · cases symptoms.foldl maxRiskStep RiskLevel.mild <;>
            simp [severityRecommendations]

/-- A zero-confidence symptom outside every table and rule. -/
def zeroConfSymptom : SymptomEntity :=
  { symptom := "rash", bodyPart := none, severity := .mild,
    duration := none, confidence := 0 }

theorem checkEmergencyConditions_zeroConf :
    checkEmergencyConditions [zeroConfSymptom] = none := by decide

theorem calc_zero_zeroConf :
    ∀ r ∈ riskRules, calculateRuleMatch [zeroConfSymptom] r = 0 := by
  intro r hr
  fin_cases hr <;> exact calculateRuleMatch_eq_zero_of_loop_none (by decide)

theorem applyRiskRules_zeroConf : applyRiskRules [zeroConfSymptom] = none := by
  apply applyRiskRules_none_of_no_high
  intro r hr
  rw [calc_zero_zeroConf r hr]
  norm_num

/-- C3 counterexample: on a symptom list carrying a zero-confidence entry the
returned confidence is 0, outside the claimed interval (0,1]. -/
theorem total_classification_cex :
    ¬ (0 < (classifyRisk [zeroConfSymptom]).confidence) := by
  have hc : classifyRisk [zeroConfSymptom] = assessBySymptomSeverity [zeroConfSymptom] :=
    classifyRisk_eq_fallback (by decide) checkEmergencyConditions_zeroConf
      applyRiskRules_zeroConf
  rw [hc, assessBySymptomSeverity, severityLoop_spec [zeroConfSymptom] RiskLevel.mild 0 []]
  dsimp only
  norm_num [zeroConfSymptom]

theorem total_classification_witness :
    ((classifyRisk [sampleChestPain]).level = RiskLevel.mild ∨
     (classifyRisk [sampleChestPain]).level = RiskLevel.moderate ∨
     (classifyRisk [sampleChestPain]).level = RiskLevel.emergency) ∧
    0 < (classifyRisk [sampleChestPain]).confidence ∧
    (classifyRisk [sampleChestPain]).confidence ≤ 1 ∧
    (classifyRisk [sampleChestPain]).reasoning ≠ [] ∧
    (classifyRisk [sampleChestPain]).recommendations ≠ [] :=
  total_classification [sampleChestPain]
    (by
      intro s hs
      rw [List.mem_singleton] at hs
      subst hs
      norm_num [sampleChestPain])

/-- C4 (amended).  On symptom lists where neither the emergency override nor
any rule fires, classifyRisk falls back to assessBySymptomSeverity, which maps
each symptom to its base tier from the static table (default mild), escalates
one step for severe severity (saturating at emergency, never decreasing),
additionally lifts a mild base tier to moderate for moderate severity, returns
the maximum adjusted tier as level, and returns min(mean confidence, 1) as
confidence. -/
theorem severity_fallback_spec (symptoms : List SymptomEntity)
    (hne : symptoms ≠ [])
    (hemerg : checkEmergencyConditions symptoms = none)
    (hrules : applyRiskRules symptoms = none) :
    classifyRisk symptoms = assessBySymptomSeverity symptoms ∧
    (∀ s ∈ symptoms,
      getRiskLevelPriority (adjustedRisk s) ≤
        getRiskLevelPriority (assessBySymptomSeverity symptoms).level) ∧
    ((assessBySymptomSeverity symptoms).level = RiskLevel.mild ∨
      ∃ s ∈ symptoms, adjustedRisk s = (assessBySymptomSeverity symptoms).level) ∧
    (assessBySymptomSeverity symptoms).confidence =
      min ((symptoms.map (·.confidence)).sum / symptoms.length) 1 ∧
    (∀ lvl, getRiskLevelPriority lvl ≤ getRiskLevelPriority (escalateRiskLevel lvl)) ∧
    escalateRiskLevel RiskLevel.emergency = RiskLevel.emergency := by
  have hassess : assessBySymptomSeverity symptoms =
      { level := symptoms.foldl maxRiskStep RiskLevel.mild,
        confidence := min ((0 + (symptoms.map (·.confidence)).sum) / symptoms.length) 1,
        reasoning :=
          [] ++ symptoms.map fun s => s.symptom ++ " (" ++ s.severity.str ++ " severity)",
        recommendations :=
          severityRecommendations (symptoms.foldl maxRiskStep RiskLevel.mild) } := by
    rw [assessBySymptomSeverity, severityLoop_spec symptoms RiskLevel.mild 0 []]
  obtain ⟨_, hub, hat⟩ := foldl_maxRiskStep_spec symptoms RiskLevel.mild
  refine ⟨classifyRisk_eq_fallback hne hemerg hrules, ?_, ?_, ?_, ?_, rfl⟩
  · intro s hs
    rw [hassess]
    exact hub s hs
  · rw [hassess]
    exact hat
  · rw [hassess, zero_add]
  · intro lvl
    cases lvl <;> simp [escalateRiskLevel, getRiskLevelPriority]

/-- A moderate-severity symptom outside every table and rule: its base tier is
mild, yet the code lifts it to moderate although its severity is not severe. -/
def moderateRash : SymptomEntity :=
  { symptom := "rash", bodyPart := none, severity := .moderate,
    duration := none, confidence := 0.8 }

theorem checkEmergencyConditions_moderateRash :
    checkEmergencyConditions [moderateRash] = none := by decide

theorem calc_zero_moderateRash :
    ∀ r ∈ riskRules, calculateRuleMatch [moderateRash] r = 0 := by
  intro r hr
  fin_cases hr <;> exact calculateRuleMatch_eq_zero_of_loop_none (by decide)

theorem applyRiskRules_moderateRash : applyRiskRules [moderateRash] = none := by
  apply applyRiskRules_none_of_no_high
  intro r hr
  rw [calc_zero_moderateRash r hr]
  norm_num

/-- C4 counterexample: "rash" sits in no table (base tier mild) and has
moderate (not severe) severity, neither the override nor a rule fires, yet
classifyRisk returns moderate — the code escalates mild-base tiers on moderate
severity, not only on severe. -/
theorem severity_fallback_cex :
    checkEmergencyConditions [moderateRash] = none ∧
    applyRiskRules [moderateRash] = none ∧
    baseRiskOf "rash" = RiskLevel.mild ∧
    moderateRash.severity ≠ SeverityLevel.severe ∧
    (classifyRisk [moderateRash]).level = RiskLevel.moderate := by
  refine ⟨checkEmergencyConditions_moderateRash, applyRiskRules_moderateRash,
    by decide, by decide, ?_⟩
  rw [classifyRisk_eq_fallback (by decide) checkEmergencyConditions_moderateRash
    applyRiskRules_moderateRash]
  rw [assessBySymptomSeverity, severityLoop_spec [moderateRash] RiskLevel.mild 0 []]
  decide

theorem severity_fallback_witness :
    (classifyRisk [moderateRash] = assessBySymptomSeverity [moderateRash] ∧
     (∀ s ∈ [moderateRash],
       getRiskLevelPriority (adjustedRisk s) ≤
         getRiskLevelPriority (assessBySymptomSeverity [moderateRash]).level) ∧
     ((assessBySymptomSeverity [moderateRash]).level = RiskLevel.mild ∨
       ∃ s ∈ [moderateRash],
         adjustedRisk s = (assessBySymptomSeverity [moderateRash]).level) ∧
     (assessBySymptomSeverity [moderateRash]).confidence =
       min (([moderateRash].map (·.confidence)).sum / ([moderateRash] : List SymptomEntity).length) 1 ∧
     (∀ lvl, getRiskLevelPriority lvl ≤ getRiskLevelPriority (escalateRiskLevel lvl)) ∧
     escalateRiskLevel RiskLevel.emergency = RiskLevel.emergency) :=
  severity_fallback_spec [moderateRash] (by decide)
    checkEmergencyConditions_moderateRash applyRiskRules_moderateRash

/-! ### C5: the rule score equals the specification's average formula -/

theorem ruleMatchLoop_none_iff (symptoms : List SymptomEntity) :
    ∀ (conds : List RiskCondition) (total : ℚ) (reqm : Nat),
      (ruleMatchLoop symptoms conds total reqm = none ↔
        ∃ c ∈ conds, c.required = true ∧
          symptoms.find? (fun s => conditionMatches c s) = none) := by
  intro conds
  induction conds with
  | nil =>
    intro total reqm
    simp [ruleMatchLoop]
  | cons c rest ih =>
    intro total reqm
    cases hf : symptoms.find? (fun s => conditionMatches c s) with
    | some s0 =>
      simp only [ruleMatchLoop, hf]
      rw [ih]
      constructor
      · rintro ⟨c2, hc2, hr2, hn2⟩
        exact ⟨c2, List.mem_cons_of_mem c hc2, hr2, hn2⟩
      · rintro ⟨c2, hc2, hr2, hn2⟩
        rcases List.mem_cons.mp hc2 with rfl | hc2
        · rw [hf] at hn2
          cases hn2
        · exact ⟨c2, hc2, hr2, hn2⟩
    | none =>
      simp only [ruleMatchLoop, hf]
      by_cases hr : c.required = true
      · rw [if_pos hr]
        simp only [true_iff]
        exact ⟨c, List.mem_cons_self _ _, hr, hf⟩
      · rw [if_neg hr, ih]
        constructor
        · rintro ⟨c2, hc2, hr2, hn2⟩
          exact ⟨c2, List.mem_cons_of_mem c hc2, hr2, hn2⟩
        · rintro ⟨c2, hc2, hr2, hn2⟩
          rcases List.mem_cons.mp hc2 with rfl | hc2
          · exact absurd hr2 hr
          · exact ⟨c2, hc2, hr2, hn2⟩

theorem ruleMatchLoop_some_spec (symptoms : List SymptomEntity) :
    ∀ (conds : List RiskCondition) (total : ℚ) (reqm : Nat) (t : ℚ) (m : Nat),
      ruleMatchLoop symptoms conds total reqm = some (t, m) →
      t = total + (conds.map (specConditionScore symptoms)).sum ∧
      m = reqm + (conds.filter (·.required)).length := by
  intro conds
  induction conds with
  | nil =>
    intro total reqm t m h
    rw [ruleMatchLoop] at h
    cases h
    simp
  | cons c rest ih =>
    intro total reqm t m h
    cases hf : symptoms.find? (fun s => conditionMatches c s) with
    | some s0 =>
      simp only [ruleMatchLoop, hf] at h
      obtain ⟨ht, hm⟩ := ih _ _ _ _ h
      have hsc : specConditionScore symptoms c = min (conditionScore c s0) 1 := by
        rw [specConditionScore, hf]
      constructor
      · rw [ht, List.map_cons, List.sum_cons, hsc]
        ring
      · rw [hm]
        cases hcr : c.required with
        | true =>
          simp [List.filter_cons, hcr]
          omega
        | false => simp [List.filter_cons, hcr]
    | none =>
      simp only [ruleMatchLoop, hf] at h
      by_cases hr : c.required = true
      · rw [if_pos hr] at h
        cases h
      · rw [if_neg hr] at h
        obtain ⟨ht, hm⟩ := ih _ _ _ _ h
        have hsc : specConditionScore symptoms c = 0 := by
          rw [specConditionScore, hf]
        have hrf : c.required = false := Bool.eq_false_iff.mpr hr
        constructor
        · rw [ht, List.map_cons, List.sum_cons, hsc, zero_add]
        · rw [hm, List.filter_cons]
          simp [hrf]

theorem calculateRuleMatch_eq_spec (symptoms : List SymptomEntity) (rule : RiskRule)
    (hne : rule.conditions ≠ []) :
    calculateRuleMatch symptoms rule = specRuleScore symptoms rule := by
  by_cases hun : requiredUnsatisfied symptoms rule = true
  · have hnone : ruleMatchLoop symptoms rule.conditions 0 0 = none := by
      rw [ruleMatchLoop_none_iff]
      rw [requiredUnsatisfied, List.any_eq_true] at hun
      obtain ⟨c, hc, hb⟩ := hun
      rw [Bool.and_eq_true, Bool.not_eq_true'] at hb
      refine ⟨c, hc, hb.1, ?_⟩
      rw [List.find?_eq_none]
      intro s hs
      have := List.any_eq_false.mp hb.2 s hs
      simpa using this
    rw [calculateRuleMatch_eq_zero_of_loop_none hnone, specRuleScore, if_pos hun]
  · cases hl : ruleMatchLoop symptoms rule.conditions 0 0 with
    | none =>
      exfalso
      rw [ruleMatchLoop_none_iff] at hl
      obtain ⟨c, hc, hr, hfn⟩ := hl
      apply hun
      rw [requiredUnsatisfied, List.any_eq_true]
      refine ⟨c, hc, ?_⟩
      rw [Bool.and_eq_true, Bool.not_eq_true']
      refine ⟨hr, ?_⟩
      rw [List.any_eq_false]
      intro s hs
      have := List.find?_eq_none.mp hfn s hs
      simpa using this
    | some tm =>
      obtain ⟨t, m⟩ := tm
      obtain ⟨ht, hm⟩ := ruleMatchLoop_some_spec symptoms rule.conditions 0 0 t m hl
      rw [calculateRuleMatch, hl]
      dsimp only
      rw [if_neg (by omega), specRuleScore, if_neg hun, ht, zero_add]

/-- C5.  A rule's match score is the average over its conditions of the
per-condition scores (0.5 base + 0.3 severity + 0.2 body part + 0.2 duration
bonuses against the first name-matching symptom, capped at 1), except 0 when a
required condition is satisfied by no symptom; the rule stage returns the
highest-scoring rule with score above 0.5, at confidence base × score, and
nothing when no rule clears the threshold. -/
theorem rule_match_scoring (symptoms : List SymptomEntity) :
    (∀ rule : RiskRule, rule.conditions ≠ [] →
      calculateRuleMatch symptoms rule = specRuleScore symptoms rule) ∧
    (∀ a : RiskAssessment, applyRiskRules symptoms = some a →
      ∃ rule ∈ riskRules,
        calculateRuleMatch symptoms rule > 0.5 ∧
        (∀ r ∈ riskRules, calculateRuleMatch symptoms r ≤ calculateRuleMatch symptoms rule) ∧
        a.level = rule.riskLevel ∧
        a.confidence = rule.confidence * calculateRuleMatch symptoms rule) ∧
    ((∀ r ∈ riskRules, ¬ (calculateRuleMatch symptoms r > 0.5)) →
      applyRiskRules symptoms = none) := by
  refine ⟨fun rule => calculateRuleMatch_eq_spec symptoms rule, ?_,
    applyRiskRules_none_of_no_high symptoms⟩
  intro a ha
  obtain ⟨rule, hmem, hhigh, hmax, heq⟩ := applyRiskRules_some_spec ha
  exact ⟨rule, hmem, hhigh, hmax, by rw [heq], by rw [heq]⟩

theorem rule_match_scoring_witness :
    calculateRuleMatch [] (riskRules.get ⟨0, by decide⟩) =
      specRuleScore [] (riskRules.get ⟨0, by decide⟩) ∧
    applyRiskRules [] = none := by
  have h1 := (rule_match_scoring []).1 (riskRules.get ⟨0, by decide⟩) (by decide)
  have hzero : ∀ r ∈ riskRules, calculateRuleMatch [] r = 0 := by
    intro r hr
    fin_cases hr <;> exact calculateRuleMatch_eq_zero_of_loop_none (by decide)
  have h2 := (rule_match_scoring []).2.2 (by
    intro r hr
    rw [hzero r hr]
    norm_num)
  exact ⟨h1, h2⟩

/-! ### C2: the safety net of generateSafeResponse -/

theorem infix_append_left {x pre post : List Char} (h : x <:+: post) :
    x <:+: pre ++ post := by
  obtain ⟨s, t, rfl⟩ := h
  exact ⟨pre ++ s, t, by simp⟩

theorem hasInfixL_append_right {x pre post : List Char}
    (h : hasInfixL x post = true) : hasInfixL x (pre ++ post) = true := by
  rw [hasInfixL_iff] at h ⊢
  exact infix_append_left h

theorem lowerL_append (a b : List Char) : lowerL (a ++ b) = lowerL a ++ lowerL b :=
  List.map_append _ a b

/-- The disclaimer appended by addMedicalDisclaimer always carries the 20-character
fragment of some disclaimer of the guardian's pool. -/
theorem addMedicalDisclaimer_has_pool_frag (pick : Nat) (t : String) :
    ∃ d ∈ SafetyGuardian.medicalDisclaimers,
      hasInfixL (SafetyGuardian.disclaimerFrag d)
        (lowerL (SafetyGuardian.addMedicalDisclaimer pick t).data) = true := by
  by_cases hfrag : SafetyGuardian.hasRequiredDisclaimerFrag t = true
  · rw [SafetyGuardian.addMedicalDisclaimer, if_pos hfrag]
    rw [SafetyGuardian.hasRequiredDisclaimerFrag, List.any_eq_true] at hfrag
    obtain ⟨d, hd, hin⟩ := hfrag
    exact ⟨d, List.mem_append_left _ hd, hin⟩
  · rw [SafetyGuardian.addMedicalDisclaimer, if_neg hfrag]
    dsimp only
    have happ : ∀ (D d : String),
        hasInfixL (SafetyGuardian.disclaimerFrag d) (lowerL D.data) = true →
        hasInfixL (SafetyGuardian.disclaimerFrag d) (lowerL (t ++ " " ++ D).data) = true := by
      intro D d h
      rw [String.data_append, lowerL_append]
      exact hasInfixL_append_right h
    by_cases hem : (hasInfixL "emergency".data (lowerL t.data) ||
        hasInfixL "urgent".data (lowerL t.data)) = true
    · rw [if_pos hem]
      refine ⟨SafetyGuardian.medicalDisclaimers.get ⟨6, by decide⟩, by decide, happ _ _ ?_⟩
      decide
    · rw [if_neg hem]
      by_cases hrec : (hasInfixL "recommend".data (lowerL t.data) ||
          hasInfixL "suggest".data (lowerL t.data)) = true
      · rw [if_pos hrec]
        refine ⟨SafetyGuardian.medicalDisclaimers.get ⟨3, by decide⟩, by decide, happ _ _ ?_⟩
        decide
      · rw [if_neg hrec]
        have h3 : pick % SafetyGuardian.requiredDisclaimers.length = 0 ∨
            pick % SafetyGuardian.requiredDisclaimers.length = 1 ∨
            pick % SafetyGuardian.requiredDisclaimers.length = 2 := by
          have : pick % SafetyGuardian.requiredDisclaimers.length < 3 :=
            Nat.mod_lt _ (by decide)
          omega
        rcases h3 with h3 | h3 | h3 <;> rw [h3]
        · exact ⟨SafetyGuardian.medicalDisclaimers.get ⟨0, by decide⟩, by decide,
            happ _ _ (by decide)⟩
        · exact ⟨SafetyGuardian.medicalDisclaimers.get ⟨1, by decide⟩, by decide,
            happ _ _ (by decide)⟩
        · exact ⟨SafetyGuardian.medicalDisclaimers.get ⟨2, by decide⟩, by decide,
            happ _ _ (by decide)⟩

/-- A response that passes validation contains no prohibited term, even
case-insensitively. -/
theorem validateResponse_clean {x : String}
    (h : (SafetyGuardian.validateResponse x).1 = true) :
    ∀ term ∈ SafetyGuardian.prohibitedTerms,
      hasInfixL (lowerL term.data) (lowerL x.data) = false := by
  intro term hterm
  rw [SafetyGuardian.validateResponse] at h
  simp only [List.isEmpty_eq_true, List.append_eq_nil] at h
  have hfm := h.1.1.1
  rw [List.filterMap_eq_nil_iff] at hfm
  have := hfm term hterm
  by_cases hc : hasInfixL (lowerL term.data) (lowerL x.data) = true
  · rw [if_pos hc] at this
    cases this
  · exact Bool.not_eq_true _ ▸ Bool.eq_false_iff.mpr hc

theorem generateSafeResponse_valid {pick1 pick2 : Nat} {t : String}
    {a : RiskAssessment}
    (h : (SafetyGuardian.validateResponse
        (SafetyGuardian.addMedicalDisclaimer pick1
          (SafetyGuardian.filterProhibitedContent t))).1 = true) :
    SafetyGuardian.generateSafeResponse pick1 pick2 t a =
      SafetyGuardian.addMedicalDisclaimer pick1 (SafetyGuardian.filterProhibitedContent t) := by
  unfold SafetyGuardian.generateSafeResponse
  rw [if_pos h]

theorem generateSafeResponse_invalid {pick1 pick2 : Nat} {t : String}
    {a : RiskAssessment}
    (h : (SafetyGuardian.validateResponse
        (SafetyGuardian.addMedicalDisclaimer pick1
          (SafetyGuardian.filterProhibitedContent t))).1 = false) :
    SafetyGuardian.generateSafeResponse pick1 pick2 t a =
      SafetyGuardian.addMedicalDisclaimer pick2 (SafetyGuardian.fallbackTemplate a.level) := by
  unfold SafetyGuardian.generateSafeResponse
  rw [if_neg (by simp [h])]
  rfl

/-- Every fallback response (the canned template plus its appended disclaimer)
is free of configured prohibited terms, whatever random pick is made. -/
theorem fallback_clean (pick : Nat) (lvl : RiskLevel) :
    ∀ term ∈ SafetyGuardian.prohibitedAdvice,
      strContains (SafetyGuardian.addMedicalDisclaimer pick
        (SafetyGuardian.fallbackTemplate lvl)) term = false := by
  cases lvl with
  | emergency =>
    have hout : SafetyGuardian.addMedicalDisclaimer pick
        (SafetyGuardian.fallbackTemplate RiskLevel.emergency) =
        SafetyGuardian.fallbackTemplate RiskLevel.emergency ++ " " ++
          "This guidance is for informational purposes only. In emergency situations, contact emergency services immediately." := by
      rw [SafetyGuardian.addMedicalDisclaimer, if_neg (by decide)]
      dsimp only
      rw [if_pos (by decide)]
    rw [hout]
    intro term hterm
    fin_cases hterm <;> decide
  | moderate =>
    have hout : SafetyGuardian.addMedicalDisclaimer pick
        (SafetyGuardian.fallbackTemplate RiskLevel.moderate) =
        SafetyGuardian.fallbackTemplate RiskLevel.moderate ++ " " ++
          "This system provides general guidance only and cannot replace professional medical advice." := by
      rw [SafetyGuardian.addMedicalDisclaimer, if_neg (by decide)]
      dsimp only
      rw [if_neg (by decide), if_pos (by decide)]
    rw [hout]
    intro term hterm
    fin_cases hterm <;> decide
  | mild =>
    have hout : SafetyGuardian.addMedicalDisclaimer pick
        (SafetyGuardian.fallbackTemplate RiskLevel.mild) =
        SafetyGuardian.fallbackTemplate RiskLevel.mild ++ " " ++
          SafetyGuardian.requiredDisclaimers.getD
            (pick % SafetyGuardian.requiredDisclaimers.length) "" := by
      rw [SafetyGuardian.addMedicalDisclaimer, if_neg (by decide)]
      dsimp only
      rw [if_neg (by decide), if_neg (by decide)]
    rw [hout]
    have h3 : pick % SafetyGuardian.requiredDisclaimers.length = 0 ∨
        pick % SafetyGuardian.requiredDisclaimers.length = 1 ∨
        pick % SafetyGuardian.requiredDisclaimers.length = 2 := by
      have : pick % SafetyGuardian.requiredDisclaimers.length < 3 :=
        Nat.mod_lt _ (by decide)
      omega
    intro term hterm
    rcases h3 with h3 | h3 | h3 <;> rw [h3] <;> fin_cases hterm <;> decide

/-- C2 (amended).  generateSafeResponse never emits a configured prohibited
term verbatim and always contains a 20-character fragment of one of the
guardian's medical disclaimers; when the filtered-and-disclaimed text fails
validateResponse, the returned text is the fixed fallback template for the
assessment's risk level with a medical disclaimer appended. -/
theorem safe_response_net (pick1 pick2 : Nat) (text : String)
    (assessment : RiskAssessment) :
    (∀ term ∈ SafetyGuardian.prohibitedAdvice,
        strContains (SafetyGuardian.generateSafeResponse pick1 pick2 text assessment)
          term = false) ∧
    (∃ d ∈ SafetyGuardian.medicalDisclaimers,
        hasInfixL (SafetyGuardian.disclaimerFrag d)
          (lowerL (SafetyGuardian.generateSafeResponse pick1 pick2 text assessment).data) =
          true) ∧
    ((SafetyGuardian.validateResponse
        (SafetyGuardian.addMedicalDisclaimer pick1
          (SafetyGuardian.filterProhibitedContent text))).1 = false →
      SafetyGuardian.generateSafeResponse pick1 pick2 text assessment =
        SafetyGuardian.addMedicalDisclaimer pick2
          (SafetyGuardian.fallbackTemplate assessment.level)) := by
  by_cases hv : (SafetyGuardian.validateResponse
      (SafetyGuardian.addMedicalDisclaimer pick1
        (SafetyGuardian.filterProhibitedContent text))).1 = true
  · have hout := @generateSafeResponse_valid pick1 pick2 text assessment hv
    refine ⟨?_, ?_, ?_⟩
    · intro term hterm
      rw [hout]
      by_contra hne
      have htrue : strContains
          (SafetyGuardian.addMedicalDisclaimer pick1
            (SafetyGuardian.filterProhibitedContent text)) term = true := by
        cases hb : strContains
            (SafetyGuardian.addMedicalDisclaimer pick1
              (SafetyGuardian.filterProhibitedContent text)) term
        · exact absurd hb hne
        · rfl
      have hlow := hasInfixL_lower_of_hasInfixL htrue
      have hclean := validateResponse_clean hv term (List.mem_append_left _ hterm)
      rw [hlow] at hclean
      cases hclean
    · rw [hout]
      exact addMedicalDisclaimer_has_pool_frag pick1 _
    · intro hinv
      rw [hv] at hinv
      cases hinv
  · have hvf : (SafetyGuardian.validateResponse
        (SafetyGuardian.addMedicalDisclaimer pick1
          (SafetyGuardian.filterProhibitedContent text))).1 = false :=
      Bool.eq_false_iff.mpr hv
    have hout := @generateSafeResponse_invalid pick1 pick2 text assessment hvf
    refine ⟨?_, ?_, fun _ => hout⟩
    · intro term hterm
      rw [hout]
      exact fallback_clean pick2 assessment.level term hterm
    · rw [hout]
      exact addMedicalDisclaimer_has_pool_frag pick2 _

/-- C2 counterexample: on empty input the disclaimed text fails validation
(the appended disclaimer itself contains the prohibited term "diagnosis"), and
the returned text is not the bare mild fallback template — a disclaimer is
appended to it. -/
theorem safe_response_net_cex :
    (SafetyGuardian.validateResponse
      (SafetyGuardian.addMedicalDisclaimer 0
        (SafetyGuardian.filterProhibitedContent ""))).1 = false ∧
    SafetyGuardian.generateSafeResponse 0 0 ""
        { level := RiskLevel.mild, confidence := 1,
          reasoning := ["ok"], recommendations := ["ok"] } ≠
      SafetyGuardian.fallbackTemplate RiskLevel.mild := by
  refine ⟨by decide, ?_⟩
  decide

/-! ### C6: intent detection priority order -/

/-- C6.  detectIntent short-circuits to unknown on the "I don't know"-type
patterns before every other check; otherwise the pattern groups are tried in
the priority order describe_symptoms, end_session, request_help,
ask_clarification; with no pattern match the result is describe_symptoms when
a symptom keyword is present and request_help otherwise. -/
theorem intent_priority_order (text : String) :
    NLProcessor.detectIntent text = NLProcessor.detectIntentSpec text := by
  unfold NLProcessor.detectIntent NLProcessor.detectIntentSpec
  dsimp only
  by_cases hu : (NLProcessor.unknownPatterns.any fun p =>
      strContains (NLProcessor.normalize text) p) = true
  · rw [if_pos hu, if_pos hu]
  · rw [if_neg hu, if_neg hu]
    simp only [NLProcessor.intentPatterns, NLProcessor.findIntentLoop]
    by_cases h1 : (NLProcessor.describePatterns.any fun p =>
        NLProcessor.matchesAny p (NLProcessor.normalize text)) = true
    · rw [if_pos h1, if_pos h1]
    · rw [if_neg h1, if_neg h1]
      by_cases h2 : (NLProcessor.endSessionPatterns.any fun p =>
          NLProcessor.matchesAny p (NLProcessor.normalize text)) = true
      · rw [if_pos h2, if_pos h2]
      · rw [if_neg h2, if_neg h2]
        by_cases h3 : (NLProcessor.requestHelpPatterns.any fun p =>
            NLProcessor.matchesAny p (NLProcessor.normalize text)) = true
        · rw [if_pos h3, if_pos h3]
        · rw [if_neg h3, if_neg h3]
          by_cases h4 : (NLProcessor.askClarificationPatterns.any fun p =>
              NLProcessor.matchesAny p (NLProcessor.normalize text)) = true
          · rw [if_pos h4, if_pos h4]
          · rw [if_neg h4, if_neg h4]

/-! ### C7: ambiguity score monotonicity in detected cues -/

/-- C7.  Monotonicity of the ambiguity score: switching on the detected
body-part, severity or duration flag of an otherwise-identical input never
increases the score. -/
theorem ambiguity_monotone (analysis : AmbiguityDetector.TextAnalysis)
    (text : String) (symptoms : List SymptomEntity) :
    AmbiguityDetector.getAmbiguityScoreWith { analysis with hasBodyPart := true }
        text symptoms ≤
      AmbiguityDetector.getAmbiguityScoreWith { analysis with hasBodyPart := false }
        text symptoms ∧
    AmbiguityDetector.getAmbiguityScoreWith { analysis with hasSeverity := true }
        text symptoms ≤
      AmbiguityDetector.getAmbiguityScoreWith { analysis with hasSeverity := false }
        text symptoms ∧
    AmbiguityDetector.getAmbiguityScoreWith { analysis with hasDuration := true }
        text symptoms ≤
      AmbiguityDetector.getAmbiguityScoreWith { analysis with hasDuration := false }
        text symptoms := by
  unfold AmbiguityDetector.getAmbiguityScoreWith
  dsimp only
  refine ⟨?_, ?_, ?_⟩
  · refine min_le_min ?_ le_rfl
    apply add_le_add_right
    apply add_le_add_right
    apply add_le_add_right
    apply add_le_add_right
    apply add_le_add_left
    norm_num
  · refine min_le_min ?_ le_rfl
    apply add_le_add_right
    apply add_le_add_right
    apply add_le_add_right
    apply add_le_add_left
    norm_num
  · refine min_le_min ?_ le_rfl
    apply add_le_add_right
    apply add_le_add_right
    apply add_le_add_left
    norm_num

/-! ### C8–C10: session store operations -/

open SessionController

theorem find_map_set (sid : String) (s : HealthSession)
    (m : List (String × HealthSession)) :
    (m.map fun p => if p.1 = sid then (p.1, s) else p).find? (fun p => p.1 = sid) =
      (m.find? (fun p => p.1 = sid)).map fun p => (p.1, s) := by
  induction m with
  | nil => rfl
  | cons q qs ih =>
    by_cases hq : q.1 = sid
    · simp [List.find?_cons, hq]
    · simp [List.find?_cons, hq, ih]

theorem find_append_of_none {pr : String × HealthSession → Bool}
    {m l2 : List (String × HealthSession)} (h : m.find? pr = none) :
    (m ++ l2).find? pr = l2.find? pr := by
  induction m with
  | nil => rfl
  | cons q qs ih =>
    by_cases hq : pr q = true
    · simp [List.find?_cons, hq] at h
    · have hq2 : pr q = false := Bool.eq_false_iff.mpr hq
      simp only [List.find?_cons, hq2] at h
      simp only [List.cons_append, List.find?_cons, hq2]
      exact ih h

theorem mapLookup_mapSet_self (sid : String) (s : HealthSession)
    (m : List (String × HealthSession)) :
    mapLookup sid (mapSet sid s m) = some s := by
  rw [mapLookup, mapSet]
  by_cases hs : (m.find? fun p => p.1 = sid).isSome = true
  · rw [if_pos hs, find_map_set]
    obtain ⟨p, hp⟩ := Option.isSome_iff_exists.mp hs
    rw [hp]
    rfl
  · rw [if_neg hs]
    have hnone : m.find? (fun p => p.1 = sid) = none :=
      Option.not_isSome_iff_eq_none.mp hs
    rw [find_append_of_none hnone]
    simp [List.find?_cons]

theorem mapLookup_mapDelete_self (sid : String) (m : List (String × HealthSession)) :
    mapLookup sid (mapDelete sid m) = none := by
  rw [mapLookup, mapDelete]
  have : ∀ (l : List (String × HealthSession)),
      (l.filter fun p => !(p.1 = sid : Bool)).find? (fun p => p.1 = sid) = none := by
    intro l
    induction l with
    | nil => rfl
    | cons q qs ih =>
      by_cases hq : q.1 = sid
      · simp [List.filter_cons, hq, ih]
      · simp [List.filter_cons, hq, List.find?_cons, ih]
  rw [this]
  rfl

/-- C8.  Ending a live session wipes its symptom list, conversation history
and assessment, and removes the identifier from the session store: afterwards
getSessionById returns none and the store has no entry for it. -/
theorem session_erasure (st : ControllerState) (sid : String) (s : HealthSession)
    (now : Nat) (hlive : mapLookup sid st.sessions = some s) :
    getSessionById (endSession st sid now).2 sid = none ∧
    mapLookup sid ((endSession st sid now).2).sessions = none ∧
    (clearSessionData s).symptoms = [] ∧
    (clearSessionData s).conversationHistory = [] ∧
    (clearSessionData s).riskAssessment = none := by
  rw [endSession, hlive]
  dsimp only
  rw [deleteSessionData]
  dsimp only
  rw [mapLookup_mapSet_self]
  refine ⟨?_, ?_, rfl, rfl, rfl⟩
  · rw [getSessionById]
    exact mapLookup_mapDelete_self sid _
  · exact mapLookup_mapDelete_self sid _

/-- C9.  Deleting a session that does not exist (including one already
deleted) is a no-op: deleteSessionData and endSession return normally and
leave the store unchanged. -/
theorem delete_session_idempotent (st : ControllerState) (sid : String) (now : Nat)
    (hmiss : mapLookup sid st.sessions = none) :
    deleteSessionData st sid = st ∧ endSession st sid now = (Except.ok (), st) := by
  constructor
  · rw [deleteSessionData, hmiss]
  · rw [endSession, hmiss]

/-- C10.  On an identifier with no live session, getSessionContext,
updateSessionContext, addSymptoms and setRiskAssessment all throw a
"Session not found" error and leave the session store unchanged. -/
theorem missing_session_ops_throw (st : ControllerState) (sid : String) (now : Nat)
    (context : PartialSessionContext) (symptoms : List SymptomEntity)
    (assessment : RiskAssessment)
    (hmiss : mapLookup sid st.sessions = none) :
    getSessionContext st sid now = Except.error ("Session not found: " ++ sid) ∧
    updateSessionContext st sid now context =
      (Except.error ("Session not found: " ++ sid), st) ∧
    addSymptoms st sid now symptoms =
      (Except.error ("Session not found: " ++ sid), st) ∧
    setRiskAssessment st sid now assessment =
      (Except.error ("Session not found: " ++ sid), st) := by
  refine ⟨?_, ?_, ?_, ?_⟩
  · rw [getSessionContext, hmiss]
  · rw [updateSessionContext, hmiss]
  · rw [addSymptoms, hmiss]
  · rw [setRiskAssessment, hmiss]

/-- A one-session store for the C8 witness. -/
def sampleSession : HealthSession :=
  { id := "s1", startTime := 0, endTime := none, symptoms := [],
    riskAssessment := none,
    conversationHistory :=
      [{ timestamp := 0, type := .system_response,
         content := "Session started", processedSymptoms := none }],
    status := .active }

def sampleState : ControllerState :=
  { sessions := [("s1", sampleSession)], sessionTimeouts := ["s1"] }

def emptyState : ControllerState := { sessions := [], sessionTimeouts := [] }

def emptyContext : PartialSessionContext :=
  { symptoms := none, questionsAsked := none, riskLevel := none, sessionDuration := none }

def sampleAssessment : RiskAssessment :=
  { level := .mild, confidence := 1, reasoning := ["r"], recommendations := ["rec"] }

theorem session_erasure_witness :
    getSessionById (endSession sampleState "s1" 5).2 "s1" = none ∧
    mapLookup "s1" ((endSession sampleState "s1" 5).2).sessions = none ∧
    (clearSessionData sampleSession).symptoms = [] ∧
    (clearSessionData sampleSession).conversationHistory = [] ∧
    (clearSessionData sampleSession).riskAssessment = none :=
  session_erasure sampleState "s1" sampleSession 5 (by decide)

theorem delete_session_idempotent_witness :
    deleteSessionData emptyState "zz" = emptyState ∧
    endSession emptyState "zz" 0 = (Except.ok (), emptyState) :=
  delete_session_idempotent emptyState "zz" 0 (by decide)

theorem missing_session_ops_throw_witness :
    getSessionContext emptyState "zz" 0 = Except.error ("Session not found: " ++ "zz") ∧
    updateSessionContext emptyState "zz" 0 emptyContext =
      (Except.error ("Session not found: " ++ "zz"), emptyState) ∧
    addSymptoms emptyState "zz" 0 [] =
      (Except.error ("Session not found: " ++ "zz"), emptyState) ∧
    setRiskAssessment emptyState "zz" 0 sampleAssessment =
      (Except.error ("Session not found: " ++ "zz"), emptyState) :=
  missing_session_ops_throw emptyState "zz" 0 emptyContext [] sampleAssessment (by decide)

end VoiceMedMitr
